import Mathlib

/-!
# eksctl: the create cluster command

A shallow embedding of pkg/ctl/create/cluster.go (doCreateCluster and its
closure createOrImportVPC), of the helpers of pkg/ctl/cmdutils/cmdutils.go it
uses, and of pkg/apis/eksctl.io/v1alpha1/register.go.

Conventions of the embedding.

* A Go function returning error becomes a value of Run: the list of the
  collaborator calls made, in order, and how the function ends: the state
  reached (a nil error), the error returned, or a panic of the Go runtime,
  after which the function does not return.
* The package-level variables of cluster.go and the arguments of
  doCreateCluster (which are pointers, mutated in place) are gathered in State
  and passed explicitly.
* Everything that cluster.go calls but that is not part of the sources at hand
  (constants and methods of the api package, the eks, kops, vpc, kubeconfig,
  utils and printers packages, the Go standard library) is a field of World.
* Calls to the logger only print; they are left out.
* A Go error built by fmt.Errorf is a constructor of Error; Error.message
  renders it the way the format string does.
-/

namespace Eksctl

/-! ## Data model -/

/-- The two keys of the subnets map (api.SubnetTopologyPrivate, api.SubnetTopologyPublic). -/
inductive SubnetTopology where
  | Private
  | Public
  deriving DecidableEq, Repr

/-- Modelled from the spec: the type api.ClusterMeta is declared outside the sources; the
fields are the ones cluster.go reads and writes (name, region, Kubernetes version). -/
structure ClusterMeta where
  Name : String
  Region : String
  Version : String
  deriving DecidableEq, Repr

/-- Modelled from the spec: the type api.ClusterVPC is declared outside the sources (VPCSpec
in the data model: a mapping from topology to an ordered list of subnet references). -/
structure ClusterVPC where
  ID : String
  SubnetsPrivate : List String
  SubnetsPublic : List String
  deriving DecidableEq, Repr

/-- Modelled from the spec: the type api.ClusterConfig is declared outside the sources; VPC is
a pointer that may be nil, Storage is Addons.Storage. -/
structure ClusterConfig where
  Metadata : ClusterMeta
  VPC : Option ClusterVPC
  Storage : Bool
  deriving DecidableEq, Repr

/-- Modelled from the spec: the type api.NodeGroup is declared outside the sources
(NodeGroupSpec in the data model). -/
structure NodeGroup where
  Name : String
  AMI : String
  AMIFamily : String
  InstanceType : String
  AllowSSH : Bool
  SSHPublicKeyPath : String
  PrivateNetworking : Bool
  deriving DecidableEq, Repr

/-- Modelled from the spec: the type api.ProviderConfig is declared outside the sources; only
Region is read here. -/
structure ProviderConfig where
  Region : String
  deriving DecidableEq, Repr

/-- The schema.GroupVersion of apimachinery. -/
structure GroupVersion where
  Group : String
  Version : String
  deriving DecidableEq, Repr

/-- The schema.GroupKind of apimachinery. -/
structure GroupKind where
  Group : String
  Kind : String
  deriving DecidableEq, Repr

/-- The schema.GroupResource of apimachinery. -/
structure GroupResource where
  Group : String
  Resource : String
  deriving DecidableEq, Repr

/-- The runtime.Scheme of apimachinery, as far as register.go touches it: the types made
known under a group version, and the group versions given the meta types. -/
structure Scheme where
  known : List (GroupVersion × String)
  metaGroupVersions : List GroupVersion
  deriving DecidableEq, Repr

/-- The calls doCreateCluster makes to its collaborators. -/
inductive Call where
  | ReadFile
  | Decode
  | LogObj
  | IsSupportedRegion
  | CheckAuth
  | SetAvailabilityZones
  | SetSubnets
  | NewWrapper
  | UseVPC
  | UseSubnets (topology : SubnetTopology)
  | EnsureAMI
  | LoadSSHPublicKey
  | CreateClusterWithNodeGroups
  | NewClientConfig
  | Write
  | NewClientSetWithEmbeddedToken
  | WaitForControlPlane
  | CreateNodeGroupAuthConfigMap
  | WaitForNodes
  | AddDefaultStorageClass
  | GetCredentialsEnv
  | CheckAllCommands
  deriving DecidableEq, Repr

/-- The errors doCreateCluster returns. An error handed back by a collaborator is passed on
as it is (origin names the call, msg is its text); the others are built by fmt.Errorf in
cluster.go and cmdutils.go, but for insufficientSubnets, the error of the method
HasSufficientSubnets of the cluster configuration. -/
inductive Error where
  | external (origin : Call) (msg : String)
  | wrongType
  | incompatibleWithConfigFile (f : String)
  | nameMustBeSet
  | regionMustBeSet
  | nameFlagAndArg (nameFlag nameArg : String)
  | sshPublicKeyEmpty
  | unsupportedRegion (region : String) (supported : List String)
  | invalidVersion (supported : List String)
  | kubeconfigAndAuto
  | kopsAndZones
  | kopsAndSubnets
  | subnetsAndZones
  | insufficientSubnets (msg : String)
  | tooFewPrivateSubnets
  | failedToCreateCluster (quotedName : String)
  | writingKubeconfig (cause : String)
  deriving DecidableEq, Repr

/-- Modelled from the spec: the type api.ClusterConfig as the decoder hands it over. Metadata
is a pointer (doCreateCluster writes the name through meta, a copy of cfg.Metadata), and it
is nil when the file has no metadata. The argument cfg of doCreateCluster has its flags
bound to fields of Metadata (line 70), so there the pointer is not nil and ClusterConfig
keeps Metadata as a plain field. -/
structure DecodedConfig where
  Metadata : Option ClusterMeta
  VPC : Option ClusterVPC
  Storage : Bool
  deriving DecidableEq, Repr

/-- The result of decoding the config file and of the type assertion on it. -/
inductive Decoded where
  | clusterConfig (cfg : DecodedConfig)
  | other
  deriving DecidableEq, Repr

/-- Modelled from the spec: the generator of names behind utils.ClusterName is not among the
sources. Section 8 says that the generated name is non-empty: it is given by its first
character and the rest. -/
structure GeneratedName where
  first : Char
  rest : String
  deriving DecidableEq, Repr

/-- The text of a generated name. -/
def GeneratedName.text (g : GeneratedName) : String := ⟨g.first :: g.rest.data⟩

/-- The package-level variables of cluster.go, and the arguments of doCreateCluster. -/
structure State where
  writeKubeconfig : Bool
  kubeconfigPath : String
  autoKubeconfigPath : Bool
  setContext : Bool
  availabilityZones : List String
  configFile : String
  kopsClusterNameForVPC : String
  subnetsPrivate : List String
  subnetsPublic : List String
  subnetsGiven : Bool
  p : ProviderConfig
  cfg : ClusterConfig
  ng : NodeGroup
  nameArg : String
  changed : List String
  scheme : Scheme
  deriving DecidableEq, Repr

/-- What lies outside the sources at hand. The first group are constants and pure functions
of the api, kubeconfig and utils packages and of the Go library; the second group are the
collaborators, each a function of the arguments the Go call passes. -/
structure World where
  GroupName : String
  LatestVersion : String
  SupportedVersions : List String
  SupportedRegions : List String
  DefaultPath : String
  AutoPath : String → String
  ImageFamilyAmazonLinux2 : String
  ResolverStatic : String
  quote : String → String
  HasSufficientSubnets : ClusterConfig → Option String
  HasSufficientPrivateSubnets : ClusterConfig → Bool
  IsGPUInstanceType : String → Bool
  generateName : Nat → GeneratedName
  NodeGroupName : String → String → String
  privateFirst : Bool
  ReadFile : String → Except String String
  Decode : Scheme → String → Except String Decoded
  LogObj : String → ClusterConfig → Option String
  IsSupportedRegion : ProviderConfig → Bool
  CheckAuth : Option String
  SetAvailabilityZones : ClusterConfig → List String → Except String ClusterConfig
  SetSubnets : ClusterConfig → Except String ClusterConfig
  NewWrapper : String → String → Option String
  UseVPC : String → ClusterConfig → Except String ClusterConfig
  UseSubnets : ClusterConfig → SubnetTopology → List String → Except String ClusterConfig
  EnsureAMI : String → NodeGroup → Except String NodeGroup
  LoadSSHPublicKey : String → NodeGroup → Except String NodeGroup
  CreateClusterWithNodeGroups : ClusterConfig → NodeGroup → List String
  NewClientConfig : ClusterConfig → Except String String
  Write : String → Bool → String × Option String
  NewClientSetWithEmbeddedToken : Option String
  WaitForControlPlane : ClusterMeta → Option String
  CreateNodeGroupAuthConfigMap : NodeGroup → Option String
  WaitForNodes : NodeGroup → Option String
  AddDefaultStorageClass : Option String
  GetCredentialsEnv : Except String (List String)
  CheckAllCommands : String → Bool → String → List String → Option String

/-- How a Go function that returns error ends: with a value (a nil error), with an error, or
with a panic of the Go runtime, in which case it does not return. -/
inductive Result (α : Type) where
  | ok (a : α)
  | error (e : Error)
  | panicked (what : String)
  deriving DecidableEq, Repr

/-- The value of a result, when there is one. -/
def Result.toOption {α : Type} : Result α → Option α
  | .ok a => some a
  | .error _ => none
  | .panicked _ => none

/-- A run of a Go function that returns error: the collaborator calls made, in order, and
how it ends. -/
structure Run (α : Type) where
  trace : List Call
  res : Result α

/-- Go on with the next statement. -/
def Run.ret {α : Type} (a : α) : Run α := ⟨[], .ok a⟩

/-- The statement return err. -/
def Run.fail {α : Type} (e : Error) : Run α := ⟨[], .error e⟩

/-- A dereference of a nil pointer: the Go runtime panics. -/
def Run.nilDereference {α : Type} : Run α :=
  ⟨[], .panicked "runtime error: invalid memory address or nil pointer dereference"⟩

/-- Sequencing: the rest runs only when no error was returned and nothing panicked, and its
calls follow. -/
def Run.andThen {α β : Type} (x : Run α) (f : α → Run β) : Run β :=
  match x.res with
  | .error e => ⟨x.trace, .error e⟩
  | .panicked what => ⟨x.trace, .panicked what⟩
  | .ok a => ⟨x.trace ++ (f a).trace, (f a).res⟩

/-- A call c to a collaborator that answers with a value or an error text. -/
def Run.call {α : Type} (c : Call) (r : Except String α) : Run α :=
  match r with
  | .error msg => ⟨[c], .error (.external c msg)⟩
  | .ok a => ⟨[c], .ok a⟩

/-- A call c to a collaborator that answers with an error text or nil. -/
def Run.check (c : Call) (r : Option String) : Run Unit :=
  match r with
  | some msg => ⟨[c], .error (.external c msg)⟩
  | none => ⟨[c], .ok ()⟩

/-- A call c to a collaborator whose answer a carries no error. -/
def Run.did {α : Type} (c : Call) (a : α) : Run α := ⟨[c], .ok a⟩

/-! ## pkg/ctl/cmdutils/cmdutils.go -/

/-- The constant IncompatibleFlags. -/
def IncompatibleFlags : String := "cannot be used at the same time"

/-- The text of an error, as its format string renders it. -/
def Error.message : Error → String
  | .external _ msg => msg
  | .wrongType => "decoded object of wrong type"
  | .incompatibleWithConfigFile f => "cannot use --" ++ f ++ " when --config-file/-f is set"
  | .nameMustBeSet => "name must be set"
  | .regionMustBeSet => "region must be set"
  | .nameFlagAndArg nameFlag nameArg =>
      "--name=" ++ nameFlag ++ " and argument " ++ nameArg ++ " " ++ IncompatibleFlags
  | .sshPublicKeyEmpty => "--ssh-public-key must be non-empty string"
  | .unsupportedRegion region supported =>
      "--region=" ++ region ++ " is not supported - use one of: " ++ ", ".intercalate supported
  | .invalidVersion supported =>
      "invalid version, supported values: " ++ ",".intercalate supported
  | .kubeconfigAndAuto => "--kubeconfig and --auto-kubeconfig " ++ IncompatibleFlags
  | .kopsAndZones => "--vpc-from-kops-cluster and --zones " ++ IncompatibleFlags
  | .kopsAndSubnets =>
      "--vpc-from-kops-cluster and --vpc-private-subnets/--vpc-public-subnets " ++ IncompatibleFlags
  | .subnetsAndZones =>
      "--vpc-private-subnets/--vpc-public-subnets and --zones " ++ IncompatibleFlags
  | .insufficientSubnets msg => msg
  | .tooFewPrivateSubnets =>
      "none or too few private subnets to use with --node-private-networking"
  | .failedToCreateCluster quotedName => "failed to create cluster " ++ quotedName
  | .writingKubeconfig cause => "writing kubeconfig: " ++ cause

/-- The function ErrUnsupportedRegion. -/
def ErrUnsupportedRegion (w : World) (p : ProviderConfig) : Error :=
  .unsupportedRegion p.Region w.SupportedRegions

/-- The function ErrNameFlagAndArg. -/
def ErrNameFlagAndArg (nameFlag nameArg : String) : Error :=
  .nameFlagAndArg nameFlag nameArg

/-! ## pkg/apis/eksctl.io/v1alpha1/register.go -/

/-- The constant CurrentGroupVersion. -/
def CurrentGroupVersion : String := "v1alpha1"

/-- The constant ClusterKind. -/
def ClusterKind : String := "Cluster"

/-- The variable SchemeGroupVersion. -/
def SchemeGroupVersion (w : World) : GroupVersion := ⟨w.GroupName, CurrentGroupVersion⟩

/-- The function Kind: an unqualified kind to a group qualified GroupKind. -/
def Kind (w : World) (kind : String) : GroupKind := ⟨(SchemeGroupVersion w).Group, kind⟩

/-- The function Resource: an unqualified resource to a group qualified GroupResource. -/
def Resource (w : World) (resource : String) : GroupResource :=
  ⟨(SchemeGroupVersion w).Group, resource⟩

/-- The function addKnownTypes: adds ClusterConfig and ClusterConfigList under
SchemeGroupVersion, adds the meta types to that group version, and returns nil. -/
def addKnownTypes (w : World) (scheme : Scheme) : Except Error Scheme :=
  .ok ⟨scheme.known ++ [(SchemeGroupVersion w, "ClusterConfig"),
      (SchemeGroupVersion w, "ClusterConfigList")],
    scheme.metaGroupVersions ++ [SchemeGroupVersion w]⟩

/-- The method AddToScheme of runtime.SchemeBuilder: applies the functions in order and stops
at the first error. -/
def SchemeBuilderAddToScheme : List (Scheme → Except Error Scheme) → Scheme → Except Error Scheme
  | [], s => .ok s
  | f :: fs, s =>
    match f s with
    | .error e => .error e
    | .ok s2 => SchemeBuilderAddToScheme fs s2

/-- The variable SchemeBuilder: runtime.NewSchemeBuilder(addKnownTypes). -/
def SchemeBuilder (w : World) : List (Scheme → Except Error Scheme) := [addKnownTypes w]

/-- The variable AddToScheme: SchemeBuilder.AddToScheme. -/
def AddToScheme (w : World) (scheme : Scheme) : Except Error Scheme :=
  SchemeBuilderAddToScheme (SchemeBuilder w) scheme

/-! ## pkg/ctl/create/cluster.go -/

/-- The list incompatibleFlags of doCreateCluster. -/
def incompatibleFlags : List String :=
  ["name", "tags", "zones", "version", "region", "nodes", "nodes-min", "nodes-max",
   "node-type", "node-volume-size", "max-pods-per-node", "node-ami", "node-ami-family",
   "ssh-access", "ssh-public-key", "node-private-networking", "asg-access",
   "external-dns-access", "full-ecr-access", "storage-class", "vpc-private-subnets",
   "vpc-public-subnets", "vpc-cidr"]

/-- The loop over incompatibleFlags (lines 164 to 168): the first flag of the list that is
marked Changed on the command ends the function with an error. -/
def checkIncompatibleFlags (changed : List String) : List String → Option Error
  | [] => none
  | f :: fs =>
    if f ∈ changed then some (.incompatibleWithConfigFile f)
    else checkIncompatibleFlags changed fs

/-- Modelled from the spec: utils.ClusterName is not among the sources. Section 4.1 gives its
policy (both absent: generate a name; exactly one present: use it; both present and
non-empty: conflict) and section 9 says the conflict is signalled by the empty string.
The argument generate is the name the generator gives when it is asked. -/
def ClusterName (generate : GeneratedName) (a b : String) : String :=
  if a ≠ "" ∧ b ≠ "" then ""
  else if a ≠ "" then a
  else if b ≠ "" then b
  else generate.text

/-- The branch of doCreateCluster taken when configFile is not empty (lines 122 to 199). The
decoded configuration is a variable of the branch: it shadows the argument cfg, which is
left as it was. Line 170 reads cfg.Metadata.Name with no test of the pointer Metadata: the
Go runtime panics there when the file has no metadata. -/
def fileSource (w : World) (s : State) : Run State :=
  (Run.call .ReadFile (w.ReadFile s.configFile)).andThen fun data =>
  (Run.call .Decode (w.Decode s.scheme data)).andThen fun obj =>
  match obj with
  | .other => Run.fail .wrongType
  | .clusterConfig cfg =>
    match checkIncompatibleFlags s.changed incompatibleFlags with
    | some e => Run.fail e
    | none =>
      match cfg.Metadata with
      | none => Run.nilDereference
      | some metadata =>
      if metadata.Name = "" then Run.fail .nameMustBeSet
      else if metadata.Region = "" then Run.fail .regionMustBeSet
      else
        let ng1 : NodeGroup :=
          if s.ng.AMIFamily = "" then { s.ng with AMIFamily := w.ImageFamilyAmazonLinux2 }
          else s.ng
        let ng2 : NodeGroup :=
          if ng1.AMI = "" then { ng1 with AMI := w.ResolverStatic } else ng1
        let given : Bool :=
          match cfg.VPC with
          | none => false
          | some vpc => decide (vpc.SubnetsPrivate.length + vpc.SubnetsPublic.length ≠ 0)
        (Run.check .LogObj
          (w.LogObj "loaded cluster config\n" ⟨metadata, cfg.VPC, cfg.Storage⟩)).andThen fun _ =>
        Run.ret { s with ng := ng2, subnetsGiven := given }

/-- The resolution of the cluster name in the branch taken when configFile is empty (lines
203 to 206). utils.ClusterName is called twice; a generated name is asked for, once per
call, only when both names are empty. -/
def resolveName (w : World) (s : State) : Run State :=
  if ClusterName (w.generateName 0) s.cfg.Metadata.Name s.nameArg = "" then
    Run.fail (ErrNameFlagAndArg s.cfg.Metadata.Name s.nameArg)
  else
    let name := ClusterName (w.generateName 1) s.cfg.Metadata.Name s.nameArg
    Run.ret { s with cfg := { s.cfg with Metadata := { s.cfg.Metadata with Name := name } } }

/-- The branch of doCreateCluster taken when configFile is empty (lines 203 to 212). -/
def flagSource (w : World) (s : State) : Run State :=
  (resolveName w s).andThen fun s1 =>
  if s1.ng.AllowSSH = true ∧ s1.ng.SSHPublicKeyPath = "" then Run.fail .sshPublicKeyEmpty
  else
    Run.ret { s1 with
      subnetsGiven := decide (s1.subnetsPrivate.length + s1.subnetsPublic.length ≠ 0) }

/-- The loop of the version check (lines 222 to 226): validVersion is set when the requested
version equals a supported one. -/
def validVersionLoop (version : String) : List String → Bool → Bool
  | [], validVersion => validVersion
  | v :: vs, validVersion =>
    validVersionLoop version vs (if version = v then true else validVersion)

/-- The version check (lines 220 to 230). -/
def versionCheck (w : World) (version : String) : Run Unit :=
  if version = w.LatestVersion then
    if validVersionLoop version w.SupportedVersions false = false then
      Run.fail (.invalidVersion w.SupportedVersions)
    else Run.ret ()
  else Run.ret ()

/-- The choice of the kubeconfig path (lines 239 to 244). -/
def autoKubeconfig (w : World) (s : State) : Run State :=
  if s.autoKubeconfigPath = true then
    if s.kubeconfigPath ≠ w.DefaultPath then Run.fail .kubeconfigAndAuto
    else Run.ret { s with kubeconfigPath := w.AutoPath s.cfg.Metadata.Name }
  else Run.ret s

/-- The checks of doCreateCluster between the two sources and the networking (lines 215 to
244): region, version, credentials, name of the nodegroup, kubeconfig path. -/
def preflight (w : World) (s : State) : Run State :=
  (Run.did .IsSupportedRegion (w.IsSupportedRegion s.p)).andThen fun supported =>
  if supported = false then Run.fail (ErrUnsupportedRegion w s.p)
  else
    (versionCheck w s.cfg.Metadata.Version).andThen fun _ =>
    (Run.check .CheckAuth w.CheckAuth).andThen fun _ =>
    autoKubeconfig w { s with ng := { s.ng with Name := w.NodeGroupName s.ng.Name "" } }

/-- The closure canUseForPrivateNodeGroup, on the configuration cfg. -/
def canUseForPrivateNodeGroup (w : World) (ng : NodeGroup) (cfg : ClusterConfig) : Run Unit :=
  if ng.PrivateNetworking = true ∧ w.HasSufficientPrivateSubnets cfg = false then
    Run.fail .tooFewPrivateSubnets
  else Run.ret ()

/-- The order in which the loop over the map subnets (line 307) meets its two keys; Go does
not fix it. -/
def subnetsOrder (w : World) : List SubnetTopology :=
  if w.privateFirst = true then [.Private, .Public] else [.Public, .Private]

/-- The value of the map subnets at a key. -/
def subnetsAt (s : State) : SubnetTopology → List String
  | .Private => s.subnetsPrivate
  | .Public => s.subnetsPublic

/-- The loop over the map subnets (lines 307 to 311). -/
def useGivenSubnets (w : World) (s : State) : List SubnetTopology → ClusterConfig → Run ClusterConfig
  | [], cfg => Run.ret cfg
  | topology :: rest, cfg =>
    (Run.call (.UseSubnets topology) (w.UseSubnets cfg topology (subnetsAt s topology))).andThen
      fun cfg1 => useGivenSubnets w s rest cfg1

/-- The closure createOrImportVPC of doCreateCluster (lines 246 to 325). -/
def createOrImportVPC (w : World) (s : State) : Run State :=
  if s.subnetsGiven = false ∧ s.kopsClusterNameForVPC = "" then
    (Run.call .SetAvailabilityZones (w.SetAvailabilityZones s.cfg s.availabilityZones)).andThen
      fun cfg1 =>
    (Run.call .SetSubnets (w.SetSubnets cfg1)).andThen fun cfg2 =>
    Run.ret { s with cfg := cfg2 }
  else if s.kopsClusterNameForVPC ≠ "" then
    if s.availabilityZones.length ≠ 0 then Run.fail .kopsAndZones
    else if s.subnetsGiven = true then Run.fail .kopsAndSubnets
    else
      (Run.check .NewWrapper (w.NewWrapper s.p.Region s.kopsClusterNameForVPC)).andThen fun _ =>
      (Run.call .UseVPC (w.UseVPC s.kopsClusterNameForVPC s.cfg)).andThen fun cfg1 =>
      (canUseForPrivateNodeGroup w s.ng cfg1).andThen fun _ =>
      Run.ret { s with cfg := cfg1 }
  else
    if s.availabilityZones.length ≠ 0 then Run.fail .subnetsAndZones
    else
      (useGivenSubnets w s (subnetsOrder w) s.cfg).andThen fun cfg1 =>
      match w.HasSufficientSubnets cfg1 with
      | some msg => Run.fail (.insufficientSubnets msg)
      | none =>
        (canUseForPrivateNodeGroup w s.ng cfg1).andThen fun _ =>
        Run.ret { s with cfg := cfg1 }

/-- The steps of doCreateCluster between the networking and the core action (lines 331 to
345). -/
def resolveResources (w : World) (s : State) : Run State :=
  (Run.call .EnsureAMI (w.EnsureAMI s.cfg.Metadata.Version s.ng)).andThen fun ng1 =>
  (Run.call .LoadSSHPublicKey (w.LoadSSHPublicKey s.cfg.Metadata.Name ng1)).andThen fun ng2 =>
  (Run.check .LogObj (w.LogObj "cfg = \\\n" s.cfg)).andThen fun _ =>
  Run.ret { s with ng := ng2 }

/-- The block core action of doCreateCluster (lines 347 to 361). -/
def coreAction (w : World) (s : State) : Run State :=
  (Run.did .CreateClusterWithNodeGroups (w.CreateClusterWithNodeGroups s.cfg s.ng)).andThen
    fun errs =>
  if errs.length > 0 then Run.fail (.failedToCreateCluster (w.quote s.cfg.Metadata.Name))
  else Run.ret s

/-- The writing of the kubeconfig in the block post-creation action (lines 373 to 383). -/
def writeKubeconfigStep (w : World) (s : State) : Run State :=
  if s.writeKubeconfig = true then
    (Run.did .Write (w.Write s.kubeconfigPath s.setContext)).andThen fun r =>
    match r.2 with
    | some msg => Run.fail (.writingKubeconfig msg)
    | none => Run.ret { s with kubeconfigPath := r.1 }
  else Run.ret { s with kubeconfigPath := "" }

/-- The block post-creation action of doCreateCluster (lines 367 to 429). An error of
utils.CheckAllCommands is logged and dropped; both branches of the test on the GPU instance
type only differ in what they log. -/
def postCreationAction (w : World) (s : State) : Run State :=
  (Run.call .NewClientConfig (w.NewClientConfig s.cfg)).andThen fun contextName =>
  (writeKubeconfigStep w s).andThen fun s1 =>
  (Run.check .NewClientSetWithEmbeddedToken w.NewClientSetWithEmbeddedToken).andThen fun _ =>
  (Run.check .WaitForControlPlane (w.WaitForControlPlane s1.cfg.Metadata)).andThen fun _ =>
  (Run.check .CreateNodeGroupAuthConfigMap (w.CreateNodeGroupAuthConfigMap s1.ng)).andThen
    fun _ =>
  (Run.check .WaitForNodes (w.WaitForNodes s1.ng)).andThen fun _ =>
  (if s1.cfg.Storage = true ∧ s1.cfg.Metadata.Version = "1.10" then
      Run.check .AddDefaultStorageClass w.AddDefaultStorageClass
    else Run.ret ()).andThen fun _ =>
  (Run.call .GetCredentialsEnv w.GetCredentialsEnv).andThen fun env =>
  (Run.did .CheckAllCommands
      (w.CheckAllCommands s1.kubeconfigPath s1.setContext contextName env)).andThen fun _ =>
  if w.IsGPUInstanceType s1.ng.InstanceType = true then Run.ret s1 else Run.ret s1

/-- The part of doCreateCluster from the networking on (lines 246 to 433). -/
def afterPreflight (w : World) (s : State) : Run State :=
  (createOrImportVPC w s).andThen fun s3 =>
  (resolveResources w s3).andThen fun s4 =>
  (coreAction w s4).andThen fun s5 =>
  postCreationAction w s5

/-- The part of doCreateCluster that follows the two sources (lines 215 to 433). -/
def afterFlagSource (w : World) (s : State) : Run State :=
  (preflight w s).andThen fun s2 =>
  afterPreflight w s2

/-- The flag source and all that follows it in doCreateCluster (lines 203 to 433). -/
def flagSourceRun (w : World) (s : State) : Run State :=
  (flagSource w s).andThen fun s1 =>
  afterFlagSource w s1

/-- The function doCreateCluster. -/
def doCreateCluster (w : World) (s : State) : Run State :=
  match AddToScheme w s.scheme with
  | .error e => Run.fail e
  | .ok scheme =>
    if s.configFile ≠ "" then fileSource w { s with scheme := scheme }
    else flagSourceRun w { s with scheme := scheme }

/-- The flag source of doCreateCluster up to the block core action (lines 203 to 345). -/
def beforeCoreAction (w : World) (s : State) : Run State :=
  (flagSource w s).andThen fun s1 =>
  (preflight w s1).andThen fun s2 =>
  (createOrImportVPC w s2).andThen fun s3 =>
  resolveResources w s3

/-- The state in which doCreateCluster enters the block core action, when it gets there:
it does not with a config file, nor when an earlier step returns an error. -/
def stateAtCoreAction (w : World) (s : State) : Option State :=
  match AddToScheme w s.scheme with
  | .error _ => none
  | .ok scheme =>
    if s.configFile ≠ "" then none
    else
      (beforeCoreAction w { s with scheme := scheme }).res.toOption

/-! ## Vocabulary of the specification -/

/-- The three networking strategies of the specification (NetworkingPlan). -/
inductive Strategy where
  | DedicatedNew
  | ImportedFrom
  | ExplicitSubnets
  deriving DecidableEq, Repr

/-- A strategy is taken in a run when the first collaborator of its branch was called:
ctl.SetAvailabilityZones for DedicatedNew, kops.NewWrapper for ImportedFrom, vpc.UseSubnets
for ExplicitSubnets. -/
def Strategy.taken : Strategy → List Call → Bool
  | .DedicatedNew, tr => tr.contains .SetAvailabilityZones
  | .ImportedFrom, tr => tr.contains .NewWrapper
  | .ExplicitSubnets, tr =>
    tr.contains (.UseSubnets .Private) || tr.contains (.UseSubnets .Public)

/-- The number of networking signals present: explicit subnets given, a non-empty name of
a kops cluster to take the VPC from, a non-empty list of zones. -/
def signalCount (s : State) : Nat :=
  (if s.subnetsGiven = true then 1 else 0)
    + (if s.kopsClusterNameForVPC ≠ "" then 1 else 0)
    + (if s.availabilityZones ≠ [] then 1 else 0)

/-- The state with the cluster name set to name (a write through meta). -/
def State.withName (s : State) (name : String) : State :=
  { s with cfg := { s.cfg with Metadata := { s.cfg.Metadata with Name := name } } }

/-- The text sub occurs in the text str (strings.Contains). -/
def Contains (str sub : String) : Prop :=
  ∃ pre post : String, str = pre ++ sub ++ post

/-- The errors that the part of doCreateCluster from the networking on can return. -/
def Error.isLate : Error → Bool
  | .external _ _ => true
  | .kopsAndZones => true
  | .kopsAndSubnets => true
  | .subnetsAndZones => true
  | .insufficientSubnets _ => true
  | .tooFewPrivateSubnets => true
  | .failedToCreateCluster _ => true
  | .writingKubeconfig _ => true
  | _ => false

/-- The errors that report two networking signals in conflict. -/
def Error.isConflict : Error → Bool
  | .kopsAndZones => true
  | .kopsAndSubnets => true
  | .subnetsAndZones => true
  | _ => false

/-! ## Sample inputs -/

/-- A world in which every collaborator succeeds. -/
def calmWorld : World where
  GroupName := "eksctl.io"
  LatestVersion := "1.11"
  SupportedVersions := ["1.10", "1.11"]
  SupportedRegions := ["us-west-2", "us-east-1"]
  DefaultPath := "kube/config"
  AutoPath := fun name => "kube/eksctl/clusters/" ++ name
  ImageFamilyAmazonLinux2 := "AmazonLinux2"
  ResolverStatic := "static"
  quote := fun name => "\"" ++ name ++ "\""
  HasSufficientSubnets := fun _ => none
  HasSufficientPrivateSubnets := fun _ => true
  IsGPUInstanceType := fun _ => false
  generateName := fun _ => ⟨'f', "loral-unicorn-1"⟩
  NodeGroupName := fun a _ => if a = "" then "ng-1" else a
  privateFirst := true
  ReadFile := fun _ => .ok "kind: ClusterConfig"
  Decode := fun _ _ => .ok (.clusterConfig ⟨some ⟨"c1", "us-west-2", "1.11"⟩, none, true⟩)
  LogObj := fun _ _ => none
  IsSupportedRegion := fun _ => true
  CheckAuth := none
  SetAvailabilityZones := fun cfg _ => .ok cfg
  SetSubnets := fun cfg => .ok cfg
  NewWrapper := fun _ _ => none
  UseVPC := fun _ cfg => .ok cfg
  UseSubnets := fun cfg _ _ => .ok cfg
  EnsureAMI := fun _ ng => .ok ng
  LoadSSHPublicKey := fun _ ng => .ok ng
  CreateClusterWithNodeGroups := fun _ _ => []
  NewClientConfig := fun _ => .ok "ctx"
  Write := fun path _ => (path, none)
  NewClientSetWithEmbeddedToken := none
  WaitForControlPlane := fun _ => none
  CreateNodeGroupAuthConfigMap := fun _ => none
  WaitForNodes := fun _ => none
  AddDefaultStorageClass := none
  GetCredentialsEnv := .ok []
  CheckAllCommands := fun _ _ _ _ => none

/-- The state of a plain invocation: no config file, no name, no networking flag. -/
def plainState : State where
  writeKubeconfig := true
  kubeconfigPath := "kube/config"
  autoKubeconfigPath := false
  setContext := true
  availabilityZones := []
  configFile := ""
  kopsClusterNameForVPC := ""
  subnetsPrivate := []
  subnetsPublic := []
  subnetsGiven := false
  p := ⟨"us-west-2"⟩
  cfg := ⟨⟨"", "us-west-2", "1.11"⟩, some ⟨"", [], []⟩, true⟩
  ng := ⟨"", "static", "AmazonLinux2", "m5.large", false, "", false⟩
  nameArg := ""
  changed := []
  scheme := ⟨[], []⟩

/-- The state in which the plain invocation enters the block core action. -/
def plainAtCoreAction : State :=
  { plainState with
    cfg := { plainState.cfg with
      Metadata := { plainState.cfg.Metadata with Name := "floral-unicorn-1" } },
    ng := { plainState.ng with Name := "ng-1" },
    scheme := ⟨[(⟨"eksctl.io", "v1alpha1"⟩, "ClusterConfig"),
      (⟨"eksctl.io", "v1alpha1"⟩, "ClusterConfigList")], [⟨"eksctl.io", "v1alpha1"⟩]⟩ }

/-- A world in which the creation of the stacks fails. -/
def stormWorld : World :=
  { calmWorld with CreateClusterWithNodeGroups := fun _ _ => ["stack creation failed"] }

/-- A world in which no configuration has sufficient private subnets. -/
def scarceWorld : World :=
  { calmWorld with HasSufficientPrivateSubnets := fun _ => false }

/-- The plain invocation with private networking asked for the nodegroup. -/
def privateState : State :=
  { plainState with ng := { plainState.ng with PrivateNetworking := true } }

/-- The invocation with private networking and the VPC of a kops cluster. -/
def privateKopsState : State :=
  { privateState with kopsClusterNameForVPC := "kops.example.com" }

/-- The plain invocation asking for a version that is not supported. -/
def oldVersionState : State :=
  { plainState with
    cfg := { plainState.cfg with Metadata := { plainState.cfg.Metadata with Version := "1.9" } } }

/-- The plain invocation with a list of zones and a private subnet given. -/
def conflictState : State :=
  { plainState with availabilityZones := ["us-west-2a"], subnetsPrivate := ["subnet-1"] }

/-- The plain invocation with the flag auto-kubeconfig and a kubeconfig path of its own. -/
def autoPathState : State :=
  { plainState with autoKubeconfigPath := true, kubeconfigPath := "my/config" }

/-- A world in which the lookup of the credentials environment fails. -/
def noCredentialsWorld : World :=
  { calmWorld with GetCredentialsEnv := .error "no credentials" }

/-- A world in which the client binaries are missing and every instance type is a GPU one. -/
def noKubectlWorld : World :=
  { calmWorld with
    CheckAllCommands := fun _ _ _ _ => some "kubectl not found",
    IsGPUInstanceType := fun _ => true }

/-- The plain invocation with the flag name set to foo. -/
def fooState : State := plainState.withName "foo"

/-- The plain invocation with the flag name set to foo and the argument bar. -/
def fooBarState : State := { fooState with nameArg := "bar" }

/-- A world in which the config file decodes to a ClusterConfig without metadata. -/
def bareFileWorld : World :=
  { calmWorld with Decode := fun _ _ => .ok (.clusterConfig ⟨none, none, true⟩) }

/-- An invocation with a config file and no flag set. -/
def fileOnlyState : State :=
  { plainState with configFile := "cluster.yaml" }

/-- An invocation with a config file and the flag region set as well. -/
def fileState : State :=
  { plainState with configFile := "cluster.yaml", changed := ["region"] }



/-! ## Theorems -/

theorem Run.andThen_res_error {α β : Type} (x : Run α) (f : α → Run β) (e : Error)
    (h : (x.andThen f).res = .error e) :
    x.res = .error e ∨ ∃ a, x.res = .ok a ∧ (f a).res = .error e := by
  unfold Run.andThen at h
  cases hx : x.res with
  | error e2 => rw [hx] at h; simp at h; left; rw [h]
  | panicked p => rw [hx] at h; simp at h
  | ok a => rw [hx] at h; right; exact ⟨a, rfl, h⟩

theorem Run.andThen_mem_trace {α β : Type} (x : Run α) (f : α → Run β) (c : Call)
    (h : c ∈ (x.andThen f).trace) :
    c ∈ x.trace ∨ ∃ a, x.res = .ok a ∧ c ∈ (f a).trace := by
  unfold Run.andThen at h
  cases hx : x.res with
  | error e2 => rw [hx] at h; left; exact h
  | panicked p => rw [hx] at h; left; exact h
  | ok a =>
    rw [hx] at h
    rcases List.mem_append.mp h with h1 | h1
    · left; exact h1
    · right; exact ⟨a, rfl, h1⟩

theorem Run.andThen_ok {α β : Type} (x : Run α) (f : α → Run β) (a : α)
    (h : x.res = .ok a) :
    (x.andThen f).res = (f a).res ∧ (x.andThen f).trace = x.trace ++ (f a).trace := by
  unfold Run.andThen
  rw [h]
  exact ⟨rfl, rfl⟩

theorem Run.andThen_error {α β : Type} (x : Run α) (f : α → Run β) (e : Error)
    (h : x.res = .error e) :
    (x.andThen f).res = .error e ∧ (x.andThen f).trace = x.trace := by
  unfold Run.andThen
  rw [h]
  exact ⟨rfl, rfl⟩

theorem Run.andThen_panicked {α β : Type} (x : Run α) (f : α → Run β) (p : String)
    (h : x.res = .panicked p) :
    (x.andThen f).res = .panicked p ∧ (x.andThen f).trace = x.trace := by
  unfold Run.andThen
  rw [h]
  exact ⟨rfl, rfl⟩

theorem Run.call_res_error {α : Type} (c : Call) (r : Except String α) (e : Error)
    (h : (Run.call c r).res = .error e) : e.isLate = true ∧ e.isConflict = false := by
  unfold Run.call at h
  cases r with
  | error m => simp at h; rw [← h]; exact ⟨rfl, rfl⟩
  | ok a => simp at h

theorem Run.check_res_error (c : Call) (r : Option String) (e : Error)
    (h : (Run.check c r).res = .error e) : e.isLate = true ∧ e.isConflict = false := by
  unfold Run.check at h
  cases r with
  | some m => simp at h; rw [← h]; exact ⟨rfl, rfl⟩
  | none => simp at h

theorem canUseForPrivateNodeGroup_isLate (w : World) (ng : NodeGroup) (cfg : ClusterConfig)
    (e : Error) (h : (canUseForPrivateNodeGroup w ng cfg).res = .error e) :
    e.isLate = true ∧ e.isConflict = false := by
  unfold canUseForPrivateNodeGroup at h
  split at h
  · simp [Run.fail] at h; rw [← h]; exact ⟨rfl, rfl⟩
  · simp [Run.ret] at h

theorem useGivenSubnets_isLate (w : World) (s : State) (l : List SubnetTopology)
    (cfg : ClusterConfig) (e : Error) (h : (useGivenSubnets w s l cfg).res = .error e) :
    e.isLate = true ∧ e.isConflict = false := by
  induction l generalizing cfg with
  | nil => simp [useGivenSubnets, Run.ret] at h
  | cons t ts ih =>
    simp only [useGivenSubnets] at h
    rcases Run.andThen_res_error _ _ _ h with h1 | ⟨a, _, h1⟩
    · exact Run.call_res_error _ _ _ h1
    · exact ih a h1

theorem createOrImportVPC_isLate (w : World) (s : State) (e : Error)
    (h : (createOrImportVPC w s).res = .error e) : e.isLate = true := by
  unfold createOrImportVPC at h
  split at h
  · rcases Run.andThen_res_error _ _ _ h with h1 | ⟨a, _, h1⟩
    · exact (Run.call_res_error _ _ _ h1).1
    · rcases Run.andThen_res_error _ _ _ h1 with h2 | ⟨b, _, h2⟩
      · exact (Run.call_res_error _ _ _ h2).1
      · simp [Run.ret] at h2
  · split at h
    · split at h
      · simp [Run.fail] at h; rw [← h]; rfl
      · split at h
        · simp [Run.fail] at h; rw [← h]; rfl
        · rcases Run.andThen_res_error _ _ _ h with h1 | ⟨a, _, h1⟩
          · exact (Run.check_res_error _ _ _ h1).1
          · rcases Run.andThen_res_error _ _ _ h1 with h2 | ⟨b, _, h2⟩
            · exact (Run.call_res_error _ _ _ h2).1
            · rcases Run.andThen_res_error _ _ _ h2 with h3 | ⟨c, _, h3⟩
              · exact (canUseForPrivateNodeGroup_isLate _ _ _ _ h3).1
              · simp [Run.ret] at h3
    · split at h
      · simp [Run.fail] at h; rw [← h]; rfl
      · rcases Run.andThen_res_error _ _ _ h with h1 | ⟨a, _, h1⟩
        · exact (useGivenSubnets_isLate _ _ _ _ _ h1).1
        · split at h1
          · simp [Run.fail] at h1; rw [← h1]; rfl
          · rcases Run.andThen_res_error _ _ _ h1 with h3 | ⟨c, _, h3⟩
            · exact (canUseForPrivateNodeGroup_isLate _ _ _ _ h3).1
            · simp [Run.ret] at h3

theorem resolveResources_isLate (w : World) (s : State) (e : Error)
    (h : (resolveResources w s).res = .error e) : e.isLate = true ∧ e.isConflict = false := by
  unfold resolveResources at h
  rcases Run.andThen_res_error _ _ _ h with h1 | ⟨a, _, h1⟩
  · exact Run.call_res_error _ _ _ h1
  · rcases Run.andThen_res_error _ _ _ h1 with h2 | ⟨b, _, h2⟩
    · exact Run.call_res_error _ _ _ h2
    · rcases Run.andThen_res_error _ _ _ h2 with h3 | ⟨c, _, h3⟩
      · exact Run.check_res_error _ _ _ h3
      · simp [Run.ret] at h3

theorem coreAction_isLate (w : World) (s : State) (e : Error)
    (h : (coreAction w s).res = .error e) : e.isLate = true ∧ e.isConflict = false := by
  unfold coreAction at h
  rcases Run.andThen_res_error _ _ _ h with h1 | ⟨a, _, h1⟩
  · simp [Run.did] at h1
  · split at h1
    · simp [Run.fail] at h1; rw [← h1]; exact ⟨rfl, rfl⟩
    · simp [Run.ret] at h1

theorem writeKubeconfigStep_isLate (w : World) (s : State) (e : Error)
    (h : (writeKubeconfigStep w s).res = .error e) : e.isLate = true ∧ e.isConflict = false := by
  unfold writeKubeconfigStep at h
  split at h
  · rcases Run.andThen_res_error _ _ _ h with h1 | ⟨a, _, h1⟩
    · simp [Run.did] at h1
    · split at h1
      · simp [Run.fail] at h1; rw [← h1]; exact ⟨rfl, rfl⟩
      · simp [Run.ret] at h1
  · simp [Run.ret] at h

theorem postCreationAction_isLate (w : World) (s : State) (e : Error)
    (h : (postCreationAction w s).res = .error e) : e.isLate = true ∧ e.isConflict = false := by
  unfold postCreationAction at h
  rcases Run.andThen_res_error _ _ _ h with h1 | ⟨a, _, h1⟩
  · exact Run.call_res_error _ _ _ h1
  rcases Run.andThen_res_error _ _ _ h1 with h2 | ⟨s1, _, h2⟩
  · exact writeKubeconfigStep_isLate _ _ _ h2
  rcases Run.andThen_res_error _ _ _ h2 with h3 | ⟨_, _, h3⟩
  · exact Run.check_res_error _ _ _ h3
  rcases Run.andThen_res_error _ _ _ h3 with h4 | ⟨_, _, h4⟩
  · exact Run.check_res_error _ _ _ h4
  rcases Run.andThen_res_error _ _ _ h4 with h5 | ⟨_, _, h5⟩
  · exact Run.check_res_error _ _ _ h5
  rcases Run.andThen_res_error _ _ _ h5 with h6 | ⟨_, _, h6⟩
  · exact Run.check_res_error _ _ _ h6
  rcases Run.andThen_res_error _ _ _ h6 with h7 | ⟨_, _, h7⟩
  · split at h7
    · exact Run.check_res_error _ _ _ h7
    · simp [Run.ret] at h7
  rcases Run.andThen_res_error _ _ _ h7 with h8 | ⟨_, _, h8⟩
  · exact Run.call_res_error _ _ _ h8
  rcases Run.andThen_res_error _ _ _ h8 with h9 | ⟨_, _, h9⟩
  · simp [Run.did] at h9
  · split at h9 <;> simp [Run.ret] at h9

theorem afterPreflight_isLate (w : World) (s : State) (e : Error)
    (h : (afterPreflight w s).res = .error e) : e.isLate = true := by
  unfold afterPreflight at h
  rcases Run.andThen_res_error _ _ _ h with h1 | ⟨_, _, h1⟩
  · exact createOrImportVPC_isLate _ _ _ h1
  rcases Run.andThen_res_error _ _ _ h1 with h2 | ⟨_, _, h2⟩
  · exact (resolveResources_isLate _ _ _ h2).1
  rcases Run.andThen_res_error _ _ _ h2 with h3 | ⟨_, _, h3⟩
  · exact (coreAction_isLate _ _ _ h3).1
  · exact (postCreationAction_isLate _ _ _ h3).1


theorem useGivenSubnets_trace (w : World) (s : State) (cfg : ClusterConfig) :
    (useGivenSubnets w s (subnetsOrder w) cfg).trace ≠ [] ∧
      ∀ c ∈ (useGivenSubnets w s (subnetsOrder w) cfg).trace,
        c = Call.UseSubnets .Private ∨ c = Call.UseSubnets .Public := by
  unfold subnetsOrder
  split <;> simp only [useGivenSubnets, Run.andThen, Run.call, Run.ret] <;>
    (repeat' split) <;> simp_all

theorem explicitSubnets_taken_of_trace (tr rest : List Call)
    (h1 : tr ≠ []) (h2 : ∀ c ∈ tr, c = Call.UseSubnets .Private ∨ c = Call.UseSubnets .Public) :
    Strategy.ExplicitSubnets.taken (tr ++ rest) = true ∧
    Strategy.DedicatedNew.taken tr = false ∧ Strategy.ImportedFrom.taken tr = false := by
  cases tr with
  | nil => exact absurd rfl h1
  | cons c cs =>
    refine ⟨?_, ?_, ?_⟩
    · rcases h2 c (by simp) with h | h <;> simp [Strategy.taken, h]
    · simp only [Strategy.taken, List.contains_eq_any_beq, Bool.eq_false_iff]
      intro h
      simp only [List.any_eq_true, beq_iff_eq] at h
      obtain ⟨x, hx, hxe⟩ := h
      rcases h2 x hx with h | h <;> simp [h] at hxe
    · simp only [Strategy.taken, List.contains_eq_any_beq, Bool.eq_false_iff]
      intro h
      simp only [List.any_eq_true, beq_iff_eq] at h
      obtain ⟨x, hx, hxe⟩ := h
      rcases h2 x hx with h | h <;> simp [h] at hxe

theorem createOrImportVPC_explicit_trace (w : World) (s : State)
    (h1 : s.subnetsGiven = true) (h2 : s.kopsClusterNameForVPC = "")
    (h3 : s.availabilityZones = []) :
    (createOrImportVPC w s).trace = (useGivenSubnets w s (subnetsOrder w) s.cfg).trace := by
  simp only [createOrImportVPC, h1, h2, h3, Run.andThen, canUseForPrivateNodeGroup, Run.fail,
    Run.ret]
  simp
  repeat' split
  all_goals simp_all

theorem createOrImportVPC_dedicated_taken (w : World) (s : State)
    (h1 : s.subnetsGiven = false) (h2 : s.kopsClusterNameForVPC = "") :
    Strategy.DedicatedNew.taken (createOrImportVPC w s).trace = true ∧
    Strategy.ImportedFrom.taken (createOrImportVPC w s).trace = false ∧
    Strategy.ExplicitSubnets.taken (createOrImportVPC w s).trace = false := by
  simp only [createOrImportVPC, h1, h2, Run.andThen, Run.call, Run.ret, Strategy.taken]
  simp
  repeat' split
  all_goals simp_all

theorem createOrImportVPC_imported_taken (w : World) (s : State)
    (h1 : s.subnetsGiven = false) (h2 : s.kopsClusterNameForVPC ≠ "")
    (h3 : s.availabilityZones = []) :
    Strategy.ImportedFrom.taken (createOrImportVPC w s).trace = true ∧
    Strategy.DedicatedNew.taken (createOrImportVPC w s).trace = false ∧
    Strategy.ExplicitSubnets.taken (createOrImportVPC w s).trace = false := by
  simp only [createOrImportVPC, h1, h2, h3, Run.andThen, Run.call, Run.check, Run.ret, Run.fail,
    canUseForPrivateNodeGroup, Strategy.taken]
  simp
  repeat' split
  all_goals simp_all

theorem createOrImportVPC_conflict (w : World) (s : State) (h : 2 ≤ signalCount s) :
    (createOrImportVPC w s).trace = [] ∧
    ((createOrImportVPC w s).res = .error .kopsAndZones ∨
     (createOrImportVPC w s).res = .error .kopsAndSubnets ∨
     (createOrImportVPC w s).res = .error .subnetsAndZones) := by
  unfold signalCount at h
  by_cases h1 : s.subnetsGiven = true <;> by_cases h2 : s.kopsClusterNameForVPC = "" <;>
    by_cases h3 : s.availabilityZones = [] <;>
    simp [h1, h2, h3] at h <;>
    simp [createOrImportVPC, h1, h2, h3, Run.fail]

/-- C1. Selection of the networking strategy in createOrImportVPC: with at most one of the
three signals (subnets given, name of a kops cluster, list of zones) exactly one strategy is
taken (DedicatedNew with no signal or zones only, ImportedFrom with the kops name only,
ExplicitSubnets with subnets only); with two or three signals the function returns an error
whose text contains IncompatibleFlags, calls no collaborator and takes no strategy. -/
theorem networking_strategy_selection (w : World) (s : State) :
    (signalCount s ≤ 1 →
      (∃! st : Strategy, st.taken (createOrImportVPC w s).trace = true) ∧
      (s.subnetsGiven = false ∧ s.kopsClusterNameForVPC = "" →
        Strategy.DedicatedNew.taken (createOrImportVPC w s).trace = true) ∧
      (s.kopsClusterNameForVPC ≠ "" →
        Strategy.ImportedFrom.taken (createOrImportVPC w s).trace = true) ∧
      (s.subnetsGiven = true →
        Strategy.ExplicitSubnets.taken (createOrImportVPC w s).trace = true)) ∧
    (2 ≤ signalCount s →
      (∃ e, (createOrImportVPC w s).res = .error e ∧ Contains e.message IncompatibleFlags) ∧
      (createOrImportVPC w s).trace = [] ∧
      ∀ st : Strategy, st.taken (createOrImportVPC w s).trace = false) := by
  constructor
  · intro h
    by_cases h1 : s.subnetsGiven = true
    · have h2 : s.kopsClusterNameForVPC = "" := by
        by_contra hk
        simp [signalCount, h1, hk] at h
        omega
      have h3 : s.availabilityZones = [] := by
        by_contra hz
        simp [signalCount, h1, h2, hz] at h
      have ht := createOrImportVPC_explicit_trace w s h1 h2 h3
      have hu := useGivenSubnets_trace w s s.cfg
      have hx := explicitSubnets_taken_of_trace _ [] hu.1 hu.2
      rw [List.append_nil, ← ht] at hx
      refine ⟨⟨Strategy.ExplicitSubnets, hx.1, ?_⟩, ?_, ?_, fun _ => hx.1⟩
      · intro st hst
        cases st
        · rw [hx.2.1] at hst; exact absurd hst (by decide)
        · rw [hx.2.2] at hst; exact absurd hst (by decide)
        · rfl
      · intro hh; rw [h1] at hh; exact absurd hh.1 (by decide)
      · intro hk; exact absurd h2 hk
    · have h1f : s.subnetsGiven = false := by simpa using h1
      by_cases h2 : s.kopsClusterNameForVPC = ""
      · have hx := createOrImportVPC_dedicated_taken w s h1f h2
        refine ⟨⟨Strategy.DedicatedNew, hx.1, ?_⟩, fun _ => hx.1, ?_, ?_⟩
        · intro st hst
          cases st
          · rfl
          · rw [hx.2.1] at hst; exact absurd hst (by decide)
          · rw [hx.2.2] at hst; exact absurd hst (by decide)
        · intro hk; exact absurd h2 hk
        · intro hh; exact absurd hh h1
      · have h3 : s.availabilityZones = [] := by
          by_contra hz
          simp [signalCount, h1f, h2, hz] at h
        have hx := createOrImportVPC_imported_taken w s h1f h2 h3
        refine ⟨⟨Strategy.ImportedFrom, hx.1, ?_⟩, ?_, fun _ => hx.1, ?_⟩
        · intro st hst
          cases st
          · rw [hx.2.1] at hst; exact absurd hst (by decide)
          · rfl
          · rw [hx.2.2] at hst; exact absurd hst (by decide)
        · intro hh; exact absurd hh.2 h2
        · intro hh; exact absurd hh h1
  · intro h
    obtain ⟨ht, hr⟩ := createOrImportVPC_conflict w s h
    refine ⟨?_, ht, ?_⟩
    · rcases hr with hr | hr | hr
      · exact ⟨_, hr, "--vpc-from-kops-cluster and --zones ", "", by
          simp [Error.message]⟩
      · exact ⟨_, hr,
          "--vpc-from-kops-cluster and --vpc-private-subnets/--vpc-public-subnets ", "", by
          simp [Error.message]⟩
      · exact ⟨_, hr, "--vpc-private-subnets/--vpc-public-subnets and --zones ", "", by
          simp [Error.message]⟩
    · intro st
      rw [ht]
      cases st <;> rfl

theorem networking_strategy_selection_witness :
    (signalCount plainState ≤ 1 ∧
      Strategy.DedicatedNew.taken (createOrImportVPC calmWorld plainState).trace = true) ∧
    (2 ≤ signalCount { plainState with subnetsGiven := true, availabilityZones := ["us-west-2a"] } ∧
      (createOrImportVPC calmWorld
        { plainState with subnetsGiven := true, availabilityZones := ["us-west-2a"] }).trace
        = []) :=
  ⟨⟨by decide,
    ((networking_strategy_selection calmWorld plainState).1 (by decide)).2.1 ⟨rfl, rfl⟩⟩,
   ⟨by decide,
    ((networking_strategy_selection calmWorld
      { plainState with subnetsGiven := true, availabilityZones := ["us-west-2a"] }).2
      (by decide)).2.1⟩⟩

theorem AddToScheme_ok (w : World) (scheme : Scheme) :
    ∃ sch, AddToScheme w scheme = .ok sch := by
  simp [AddToScheme, SchemeBuilder, SchemeBuilderAddToScheme, addKnownTypes]

theorem doCreateCluster_file (w : World) (s : State) (sch : Scheme)
    (hf : s.configFile ≠ "") (hs : AddToScheme w s.scheme = .ok sch) :
    doCreateCluster w s = fileSource w { s with scheme := sch } := by
  simp only [doCreateCluster, hs]
  rw [if_pos hf]

theorem doCreateCluster_flag (w : World) (s : State) (sch : Scheme)
    (hf : s.configFile = "") (hs : AddToScheme w s.scheme = .ok sch) :
    doCreateCluster w s = flagSourceRun w { s with scheme := sch } := by
  simp only [doCreateCluster, hs]
  rw [if_neg (by simp [hf])]

theorem checkIncompatibleFlags_first (changed : List String) (l : List String)
    (h : ∃ f ∈ l, f ∈ changed) :
    ∃ pre f post, l = pre ++ f :: post ∧ f ∈ changed ∧ (∀ g ∈ pre, g ∉ changed) ∧
      checkIncompatibleFlags changed l = some (.incompatibleWithConfigFile f) := by
  induction l with
  | nil => simp at h
  | cons a l ih =>
    by_cases ha : a ∈ changed
    · exact ⟨[], a, l, rfl, ha, by simp, by simp [checkIncompatibleFlags, ha]⟩
    · obtain ⟨f, hf, hfc⟩ := h
      have hfl : f ∈ l := by
        rcases List.mem_cons.mp hf with h1 | h1
        · exact absurd (h1 ▸ hfc) ha
        · exact h1
      obtain ⟨pre, g, post, hl, hg, hpre, hc⟩ := ih ⟨f, hfl, hfc⟩
      refine ⟨a :: pre, g, post, by simp [hl], hg, ?_, by simp [checkIncompatibleFlags, ha, hc]⟩
      intro x hx
      rcases List.mem_cons.mp hx with h1 | h1
      · exact h1 ▸ ha
      · exact hpre x h1

theorem checkIncompatibleFlags_none (changed : List String) (l : List String)
    (h : ∀ f ∈ l, f ∉ changed) : checkIncompatibleFlags changed l = none := by
  induction l with
  | nil => rfl
  | cons a l ih =>
    have ha : a ∉ changed := h a (by simp)
    simp only [checkIncompatibleFlags, ha, if_false]
    exact ih (fun f hf => h f (List.mem_cons_of_mem a hf))

/-- C2. File source of doCreateCluster: when the config file is read and decodes to a
ClusterConfig and some option of the list incompatibleFlags is marked Changed, the function
fails with the error that names an option f and says it cannot be used when the config file
is set, where f is the first member of the list, in its order, that is marked Changed; when
none is, no such error is returned. -/
theorem file_source_incompatible_flags (w : World) (s : State) (sch : Scheme) (data : String)
    (cfg : DecodedConfig) (hf : s.configFile ≠ "")
    (hs : AddToScheme w s.scheme = .ok sch)
    (hr : w.ReadFile s.configFile = .ok data)
    (hd : w.Decode sch data = .ok (.clusterConfig cfg)) :
    ((∃ f ∈ incompatibleFlags, f ∈ s.changed) →
      ∃ pre f post, incompatibleFlags = pre ++ f :: post ∧ f ∈ s.changed ∧
        (∀ g ∈ pre, g ∉ s.changed) ∧
        (doCreateCluster w s).res = .error (.incompatibleWithConfigFile f) ∧
        (Error.incompatibleWithConfigFile f).message
          = "cannot use --" ++ f ++ " when --config-file/-f is set") ∧
    ((∀ f ∈ incompatibleFlags, f ∉ s.changed) →
      ∀ f, (doCreateCluster w s).res ≠ .error (.incompatibleWithConfigFile f)) := by
  constructor
  · intro h
    obtain ⟨pre, f, post, hl, hfc, hpre, hc⟩ := checkIncompatibleFlags_first s.changed _ h
    refine ⟨pre, f, post, hl, hfc, hpre, ?_, rfl⟩
    rw [doCreateCluster_file w s sch hf hs]
    simp [fileSource, Run.andThen, Run.call, hr, hd, hc, Run.fail]
  · intro h f
    have hc := checkIncompatibleFlags_none s.changed _ h
    rw [doCreateCluster_file w s sch hf hs]
    simp only [fileSource, Run.andThen, Run.call, hr, hd, hc, Run.fail, Run.check, Run.ret]
    cases hm : cfg.Metadata with
    | none => simp [Run.nilDereference]
    | some m =>
      by_cases hn : m.Name = "" <;> by_cases hg : m.Region = "" <;>
        cases hL : w.LogObj "loaded cluster config\n" ⟨m, cfg.VPC, cfg.Storage⟩ <;>
        simp [hn, hg, hL]

theorem file_source_incompatible_flags_witness :
    (∃ f ∈ incompatibleFlags, f ∈ fileState.changed) ∧
    ∃ pre f post, incompatibleFlags = pre ++ f :: post ∧ f ∈ fileState.changed ∧
      (∀ g ∈ pre, g ∉ fileState.changed) ∧
      (doCreateCluster calmWorld fileState).res = .error (.incompatibleWithConfigFile f) ∧
      (Error.incompatibleWithConfigFile f).message
        = "cannot use --" ++ f ++ " when --config-file/-f is set" :=
  ⟨⟨"region", by decide, by decide⟩,
   (file_source_incompatible_flags calmWorld fileState _ "kind: ClusterConfig"
      ⟨some ⟨"c1", "us-west-2", "1.11"⟩, none, true⟩ (by decide) rfl rfl rfl).1
      ⟨"region", by decide, by decide⟩⟩

theorem versionCheck_res_error (w : World) (v : String) (e : Error)
    (h : (versionCheck w v).res = .error e) : e = .invalidVersion w.SupportedVersions := by
  unfold versionCheck at h
  split at h
  · split at h
    · simp [Run.fail] at h; exact h.symm
    · simp [Run.ret] at h
  · simp [Run.ret] at h

theorem autoKubeconfig_res_error (w : World) (s : State) (e : Error)
    (h : (autoKubeconfig w s).res = .error e) :
    e = .kubeconfigAndAuto ∧ s.autoKubeconfigPath = true ∧ s.kubeconfigPath ≠ w.DefaultPath := by
  unfold autoKubeconfig at h
  split at h
  · split at h
    · simp [Run.fail] at h; exact ⟨h.symm, by assumption, by assumption⟩
    · simp [Run.ret] at h
  · simp [Run.ret] at h

theorem preflight_res_error (w : World) (s : State) (e : Error)
    (h : (preflight w s).res = .error e) :
    e = ErrUnsupportedRegion w s.p ∨ e = .invalidVersion w.SupportedVersions ∨
      (∃ msg, e = .external .CheckAuth msg) ∨
      (e = .kubeconfigAndAuto ∧ s.autoKubeconfigPath = true ∧
        s.kubeconfigPath ≠ w.DefaultPath) := by
  unfold preflight at h
  rcases Run.andThen_res_error _ _ _ h with h1 | ⟨a, _, h1⟩
  · simp [Run.did] at h1
  split at h1
  · simp [Run.fail] at h1; left; exact h1.symm
  rcases Run.andThen_res_error _ _ _ h1 with h2 | ⟨_, _, h2⟩
  · right; left; exact versionCheck_res_error _ _ _ h2
  rcases Run.andThen_res_error _ _ _ h2 with h3 | ⟨_, _, h3⟩
  · right; right; left
    unfold Run.check at h3
    split at h3
    · simp at h3; exact ⟨_, h3.symm⟩
    · simp at h3
  · right; right; right
    have h4 := autoKubeconfig_res_error w _ e h3
    exact h4

theorem resolveName_res_error (w : World) (s : State) (e : Error)
    (h : (resolveName w s).res = .error e) :
    e = ErrNameFlagAndArg s.cfg.Metadata.Name s.nameArg ∧
      ClusterName (w.generateName 0) s.cfg.Metadata.Name s.nameArg = "" := by
  unfold resolveName at h
  split at h
  · simp [Run.fail] at h; exact ⟨h.symm, by assumption⟩
  · simp [Run.ret] at h

theorem flagSourceRun_naming_error (w : World) (s : State) (x y : String)
    (h : (flagSourceRun w s).res = .error (.nameFlagAndArg x y)) :
    ClusterName (w.generateName 0) s.cfg.Metadata.Name s.nameArg = "" := by
  unfold flagSourceRun at h
  rcases Run.andThen_res_error _ _ _ h with h1 | ⟨s1, _, h1⟩
  · unfold flagSource at h1
    rcases Run.andThen_res_error _ _ _ h1 with h2 | ⟨s2, _, h2⟩
    · exact (resolveName_res_error _ _ _ h2).2
    · split at h2 <;> simp [Run.fail, Run.ret] at h2
  · unfold afterFlagSource at h1
    rcases Run.andThen_res_error _ _ _ h1 with h2 | ⟨s2, _, h2⟩
    · rcases preflight_res_error _ _ _ h2 with h3 | h3 | ⟨_, h3⟩ | ⟨h3, _⟩ <;>
        simp [ErrUnsupportedRegion] at h3
    · have := afterPreflight_isLate _ _ _ h2
      simp [Error.isLate] at this

theorem GeneratedName.text_ne_empty (g : GeneratedName) : g.text ≠ "" := by
  intro h
  have h2 := congrArg String.data h
  simp [GeneratedName.text] at h2

theorem Run.ok_andThen {α β : Type} (a : α) (f : α → Run β) :
    (Run.andThen ⟨[], .ok a⟩ f) = f a := by
  cases hf : f a with
  | mk tr r => simp [Run.andThen, hf]

theorem flagSource_of_name (w : World) (s : State) (name : String)
    (h : (s.cfg.Metadata.Name ≠ "" ∧ s.nameArg = "" ∧ name = s.cfg.Metadata.Name) ∨
      (s.cfg.Metadata.Name = "" ∧ s.nameArg ≠ "" ∧ name = s.nameArg) ∨
      (s.cfg.Metadata.Name = "" ∧ s.nameArg = "" ∧ name = (w.generateName 1).text)) :
    name ≠ "" ∧ ClusterName (w.generateName 0) s.cfg.Metadata.Name s.nameArg ≠ "" ∧
    flagSource w s
      = if s.ng.AllowSSH = true ∧ s.ng.SSHPublicKeyPath = "" then Run.fail .sshPublicKeyEmpty
        else Run.ret { s.withName name with
          subnetsGiven := decide (s.subnetsPrivate.length + s.subnetsPublic.length ≠ 0) } := by
  have g0 := GeneratedName.text_ne_empty (w.generateName 0)
  have g1 := GeneratedName.text_ne_empty (w.generateName 1)
  rcases h with ⟨hn, ha, rfl⟩ | ⟨hn, ha, rfl⟩ | ⟨hn, ha, rfl⟩
  · have hc : ∀ g, ClusterName g s.cfg.Metadata.Name s.nameArg = s.cfg.Metadata.Name := by
      intro g; simp [ClusterName, hn, ha]
    refine ⟨hn, by rw [hc]; exact hn, ?_⟩
    simp only [flagSource, resolveName, hc, if_neg hn, Run.ret, State.withName]
    rw [Run.ok_andThen]
  · have hc : ∀ g, ClusterName g s.cfg.Metadata.Name s.nameArg = s.nameArg := by
      intro g; simp [ClusterName, hn, ha]
    refine ⟨ha, by rw [hc]; exact ha, ?_⟩
    simp only [flagSource, resolveName, hc, if_neg ha, Run.ret, State.withName]
    rw [Run.ok_andThen]
  · have hc : ∀ g, ClusterName g s.cfg.Metadata.Name s.nameArg = g.text := by
      intro g; simp [ClusterName, hn, ha]
    refine ⟨g1, by rw [hc]; exact g0, ?_⟩
    simp only [flagSource, resolveName, hc, if_neg g0, Run.ret, State.withName]
    rw [Run.ok_andThen]

/-- C3. Resolution of the cluster name in the flag source of doCreateCluster (configFile
empty), with n the name flag and a the name argument, utils.ClusterName and its generator
being modelled from the spec: when both n and a are non-empty the function fails at once
with ErrNameFlagAndArg n a, whose text says that the two cannot be used at the same time;
when exactly one is non-empty the cluster name becomes that value, and when both are empty
it becomes a generated name, which is non-empty; in these cases no naming error is returned
and, unless the check of the SSH key fails, the rest of doCreateCluster (lines 215 to 433)
runs from the state in which meta.Name is that name. -/
theorem cluster_name_resolution (w : World) (s : State) (sch : Scheme)
    (hcf : s.configFile = "") (hs : AddToScheme w s.scheme = .ok sch) :
    (s.cfg.Metadata.Name ≠ "" ∧ s.nameArg ≠ "" →
      doCreateCluster w s
        = ⟨[], .error (ErrNameFlagAndArg s.cfg.Metadata.Name s.nameArg)⟩ ∧
      (ErrNameFlagAndArg s.cfg.Metadata.Name s.nameArg).message
        = "--name=" ++ s.cfg.Metadata.Name ++ " and argument " ++ s.nameArg
          ++ " cannot be used at the same time") ∧
    (∀ name : String,
      (s.cfg.Metadata.Name ≠ "" ∧ s.nameArg = "" ∧ name = s.cfg.Metadata.Name) ∨
        (s.cfg.Metadata.Name = "" ∧ s.nameArg ≠ "" ∧ name = s.nameArg) ∨
        (s.cfg.Metadata.Name = "" ∧ s.nameArg = "" ∧ name = (w.generateName 1).text) →
      name ≠ "" ∧
      (∀ x y, (doCreateCluster w s).res ≠ .error (.nameFlagAndArg x y)) ∧
      (s.ng.AllowSSH = true ∧ s.ng.SSHPublicKeyPath = "" →
        doCreateCluster w s = ⟨[], .error .sshPublicKeyEmpty⟩) ∧
      (¬(s.ng.AllowSSH = true ∧ s.ng.SSHPublicKeyPath = "") →
        doCreateCluster w s
          = afterFlagSource w
              { ({ s with scheme := sch } : State).withName name with
                subnetsGiven :=
                  decide (s.subnetsPrivate.length + s.subnetsPublic.length ≠ 0) })) := by
  rw [doCreateCluster_flag w s sch hcf hs]
  refine ⟨?_, ?_⟩
  · rintro ⟨hn, ha⟩
    refine ⟨?_, ?_⟩
    · simp [flagSourceRun, flagSource, resolveName, ClusterName, hn, ha, Run.andThen, Run.fail]
    · simp [ErrNameFlagAndArg, Error.message, IncompatibleFlags, String.append_assoc]
  · intro name h
    obtain ⟨hne, hc, hfs⟩ := flagSource_of_name w { s with scheme := sch } name h
    refine ⟨hne, ?_, ?_, ?_⟩
    · intro x y hh
      exact hc (flagSourceRun_naming_error _ _ _ _ hh)
    · intro hssh
      unfold flagSourceRun
      rw [hfs, if_pos hssh]
      simp [Run.andThen, Run.fail]
    · intro hssh
      unfold flagSourceRun
      rw [hfs, if_neg hssh]
      exact Run.ok_andThen _ _

theorem cluster_name_resolution_witness :
    (doCreateCluster calmWorld fooBarState = ⟨[], .error (ErrNameFlagAndArg "foo" "bar")⟩ ∧
      (ErrNameFlagAndArg "foo" "bar").message
        = "--name=foo and argument bar cannot be used at the same time") ∧
    doCreateCluster calmWorld fooState
      = afterFlagSource calmWorld
          { ({ fooState with scheme := plainAtCoreAction.scheme } : State).withName "foo" with
            subnetsGiven := false } ∧
    ("floral-unicorn-1" ≠ "" ∧
      doCreateCluster calmWorld plainState
        = afterFlagSource calmWorld
            { ({ plainState with scheme := plainAtCoreAction.scheme } : State).withName
                "floral-unicorn-1" with
              subnetsGiven := false }) :=
  ⟨(cluster_name_resolution calmWorld fooBarState plainAtCoreAction.scheme rfl rfl).1
      ⟨by decide, by decide⟩,
   ((cluster_name_resolution calmWorld fooState plainAtCoreAction.scheme rfl rfl).2 "foo"
      (Or.inl ⟨by decide, rfl, rfl⟩)).2.2.2 (by decide),
   ((cluster_name_resolution calmWorld plainState plainAtCoreAction.scheme rfl rfl).2
      "floral-unicorn-1" (Or.inr (Or.inr ⟨rfl, rfl, rfl⟩))).1,
   ((cluster_name_resolution calmWorld plainState plainAtCoreAction.scheme rfl rfl).2
      "floral-unicorn-1" (Or.inr (Or.inr ⟨rfl, rfl, rfl⟩))).2.2.2 (by decide)⟩

theorem fileSource_calls (w : World) (s : State) :
    ∀ c ∈ (fileSource w s).trace, c ∈ [Call.ReadFile, Call.Decode, Call.LogObj] := by
  simp only [fileSource, Run.andThen, Run.call, Run.check, Run.ret, Run.fail,
    Run.nilDereference]
  repeat' split
  all_goals simp_all

theorem flagSource_calls (w : World) (s : State) : (flagSource w s).trace = [] := by
  simp only [flagSource, resolveName, Run.andThen, Run.ret, Run.fail]
  repeat' split
  all_goals simp_all

theorem preflight_calls (w : World) (s : State) :
    ∀ c ∈ (preflight w s).trace, c ∈ [Call.IsSupportedRegion, Call.CheckAuth] := by
  simp only [preflight, versionCheck, autoKubeconfig, Run.andThen, Run.did, Run.check, Run.ret,
    Run.fail]
  repeat' split
  all_goals simp_all

theorem createOrImportVPC_calls (w : World) (s : State) :
    ∀ c ∈ (createOrImportVPC w s).trace,
      c ∈ [Call.SetAvailabilityZones, Call.SetSubnets, Call.NewWrapper, Call.UseVPC,
        Call.UseSubnets .Private, Call.UseSubnets .Public] := by
  by_cases h1 : s.subnetsGiven = true ∧ s.kopsClusterNameForVPC = "" ∧ s.availabilityZones = []
  · rw [createOrImportVPC_explicit_trace w s h1.1 h1.2.1 h1.2.2]
    intro c hc
    rcases (useGivenSubnets_trace w s s.cfg).2 c hc with h | h <;> simp [h]
  · simp only [createOrImportVPC, canUseForPrivateNodeGroup, Run.andThen, Run.call, Run.check,
      Run.ret, Run.fail]
    repeat' split
    all_goals simp_all

theorem resolveResources_calls (w : World) (s : State) :
    ∀ c ∈ (resolveResources w s).trace,
      c ∈ [Call.EnsureAMI, Call.LoadSSHPublicKey, Call.LogObj] := by
  simp only [resolveResources, Run.andThen, Run.call, Run.check, Run.ret, Run.fail]
  repeat' split
  all_goals simp_all

theorem coreAction_trace (w : World) (s : State) :
    (coreAction w s).trace = [Call.CreateClusterWithNodeGroups] := by
  simp only [coreAction, Run.andThen, Run.did, Run.ret, Run.fail]
  repeat' split
  all_goals simp_all

theorem postCreationAction_calls (w : World) (s : State) :
    ∀ c ∈ (postCreationAction w s).trace,
      c ∈ [Call.NewClientConfig, Call.Write, Call.NewClientSetWithEmbeddedToken,
        Call.WaitForControlPlane, Call.CreateNodeGroupAuthConfigMap, Call.WaitForNodes,
        Call.AddDefaultStorageClass, Call.GetCredentialsEnv, Call.CheckAllCommands] := by
  intro c hc
  unfold postCreationAction at hc
  rcases Run.andThen_mem_trace _ _ _ hc with h | ⟨_, _, hc⟩
  · unfold Run.call at h; split at h <;> simp_all
  rcases Run.andThen_mem_trace _ _ _ hc with h | ⟨_, _, hc⟩
  · simp only [writeKubeconfigStep, Run.andThen, Run.did, Run.ret, Run.fail] at h
    repeat' split at h
    all_goals simp_all
  rcases Run.andThen_mem_trace _ _ _ hc with h | ⟨_, _, hc⟩
  · unfold Run.check at h; split at h <;> simp_all
  rcases Run.andThen_mem_trace _ _ _ hc with h | ⟨_, _, hc⟩
  · unfold Run.check at h; split at h <;> simp_all
  rcases Run.andThen_mem_trace _ _ _ hc with h | ⟨_, _, hc⟩
  · unfold Run.check at h; split at h <;> simp_all
  rcases Run.andThen_mem_trace _ _ _ hc with h | ⟨_, _, hc⟩
  · unfold Run.check at h; split at h <;> simp_all
  rcases Run.andThen_mem_trace _ _ _ hc with h | ⟨_, _, hc⟩
  · split at h
    · unfold Run.check at h; split at h <;> simp_all
    · simp [Run.ret] at h
  rcases Run.andThen_mem_trace _ _ _ hc with h | ⟨_, _, hc⟩
  · unfold Run.call at h; split at h <;> simp_all
  rcases Run.andThen_mem_trace _ _ _ hc with h | ⟨_, _, hc⟩
  · simp_all [Run.did]
  · split at hc <;> simp [Run.ret] at hc

theorem Run.andThen_assoc {α β γ : Type} (x : Run α) (f : α → Run β) (g : β → Run γ) :
    (x.andThen f).andThen g = x.andThen (fun a => (f a).andThen g) := by
  obtain ⟨tr, r⟩ := x
  cases r with
  | error e => simp [Run.andThen]
  | panicked p => simp [Run.andThen]
  | ok a =>
    cases hf : f a with
    | mk tr2 r2 =>
      cases r2 with
      | error e => simp [Run.andThen, hf]
      | panicked p => simp [Run.andThen, hf]
      | ok b => simp [Run.andThen, hf, List.append_assoc]

theorem flagSourceRun_eq (w : World) (s : State) :
    flagSourceRun w s = (beforeCoreAction w s).andThen fun s4 =>
      (coreAction w s4).andThen fun s5 => postCreationAction w s5 := by
  unfold flagSourceRun afterFlagSource beforeCoreAction afterPreflight
  simp only [Run.andThen_assoc]

theorem beforeCoreAction_calls (w : World) (s : State) :
    ∀ c ∈ (beforeCoreAction w s).trace,
      c ∈ [Call.IsSupportedRegion, Call.CheckAuth, Call.SetAvailabilityZones, Call.SetSubnets,
        Call.NewWrapper, Call.UseVPC, Call.UseSubnets .Private, Call.UseSubnets .Public,
        Call.EnsureAMI, Call.LoadSSHPublicKey, Call.LogObj] := by
  intro c hc
  unfold beforeCoreAction at hc
  rcases Run.andThen_mem_trace _ _ _ hc with h | ⟨_, _, hc⟩
  · rw [flagSource_calls] at h; simp at h
  rcases Run.andThen_mem_trace _ _ _ hc with h | ⟨_, _, hc⟩
  · have := preflight_calls _ _ c h; simp at this; rcases this with h | h <;> simp [h]
  rcases Run.andThen_mem_trace _ _ _ hc with h | ⟨_, _, hc⟩
  · have := createOrImportVPC_calls _ _ c h; simp at this
    rcases this with h | h | h | h | h | h <;> simp [h]
  · have := resolveResources_calls _ _ c hc; simp at this
    rcases this with h | h | h <;> simp [h]

theorem stateAtCoreAction_flag (w : World) (s : State) (sch : Scheme)
    (hf : s.configFile = "") (hs : AddToScheme w s.scheme = .ok sch) :
    stateAtCoreAction w s = (beforeCoreAction w { s with scheme := sch }).res.toOption := by
  simp only [stateAtCoreAction, hs]
  rw [if_neg (by simp [hf])]

theorem stateAtCoreAction_file (w : World) (s : State)
    (hf : s.configFile ≠ "") : stateAtCoreAction w s = none := by
  obtain ⟨sch, hs⟩ := AddToScheme_ok w s.scheme
  simp only [stateAtCoreAction, hs]
  rw [if_pos hf]

/-- C4. A failure of the provisioning is fatal: CreateClusterWithNodeGroups is called exactly
in the runs that get to the block core action, and when it then returns a non-empty list
of errors doCreateCluster returns the error failed to create cluster with the quoted name,
the call is the last one of the run, and no step of the block post-creation action is
called. -/
theorem provisioning_failure_is_fatal (w : World) (s : State) :
    (Call.CreateClusterWithNodeGroups ∈ (doCreateCluster w s).trace ↔
      ∃ s4, stateAtCoreAction w s = some s4) ∧
    ∀ s4, stateAtCoreAction w s = some s4 →
      w.CreateClusterWithNodeGroups s4.cfg s4.ng ≠ [] →
      (doCreateCluster w s).res
        = .error (.failedToCreateCluster (w.quote s4.cfg.Metadata.Name)) ∧
      (Error.failedToCreateCluster (w.quote s4.cfg.Metadata.Name)).message
        = "failed to create cluster " ++ w.quote s4.cfg.Metadata.Name ∧
      (doCreateCluster w s).trace.getLast? = some Call.CreateClusterWithNodeGroups ∧
      ∀ c ∈ (doCreateCluster w s).trace,
        c ∉ [Call.NewClientConfig, Call.Write, Call.NewClientSetWithEmbeddedToken,
          Call.WaitForControlPlane, Call.CreateNodeGroupAuthConfigMap, Call.WaitForNodes,
          Call.AddDefaultStorageClass, Call.GetCredentialsEnv, Call.CheckAllCommands] := by
  obtain ⟨sch, hs⟩ := AddToScheme_ok w s.scheme
  by_cases hcf : s.configFile = ""
  · rw [doCreateCluster_flag w s sch hcf hs, flagSourceRun_eq,
      stateAtCoreAction_flag w s sch hcf hs]
    generalize ({ s with scheme := sch } : State) = s0
    cases hb : (beforeCoreAction w s0).res with
    | error e =>
      have ht := (Run.andThen_error _ (fun s4 => (coreAction w s4).andThen
        fun s5 => postCreationAction w s5) e hb).2
      rw [ht]
      refine ⟨⟨fun h => ?_, fun h => ?_⟩, fun s4 h => ?_⟩
      · have := beforeCoreAction_calls _ _ _ h; simp at this
      · simp [Result.toOption] at h
      · simp [Result.toOption] at h
    | panicked p =>
      have ht := (Run.andThen_panicked _ (fun s4 => (coreAction w s4).andThen
        fun s5 => postCreationAction w s5) p hb).2
      rw [ht]
      refine ⟨⟨fun h => ?_, fun h => ?_⟩, fun s4 h => ?_⟩
      · have := beforeCoreAction_calls _ _ _ h; simp at this
      · simp [Result.toOption] at h
      · simp [Result.toOption] at h
    | ok s4 =>
      have ht := Run.andThen_ok _ (fun s4 => (coreAction w s4).andThen
        fun s5 => postCreationAction w s5) s4 hb
      rw [ht.1, ht.2]
      refine ⟨⟨fun _ => ⟨s4, rfl⟩, fun _ => ?_⟩, fun s4b h hne => ?_⟩
      · apply List.mem_append_right
        simp [coreAction, Run.andThen, Run.did]
        split <;> simp
      · simp only [Result.toOption, Option.some.injEq] at h
        subst h
        have hlen : (w.CreateClusterWithNodeGroups s4.cfg s4.ng).length > 0 :=
          List.length_pos.mpr hne
        have hc : (coreAction w s4).res
            = .error (.failedToCreateCluster (w.quote s4.cfg.Metadata.Name)) := by
          simp [coreAction, Run.andThen, Run.did, hlen, Run.fail]
        have hc2 := Run.andThen_error _ (fun s5 => postCreationAction w s5) _ hc
        rw [hc2.1, hc2.2, coreAction_trace]
        refine ⟨rfl, rfl, by simp, ?_⟩
        intro c hcm
        rcases List.mem_append.mp hcm with h1 | h1
        · have := beforeCoreAction_calls _ _ _ h1
          simp at this
          rcases this with h | h | h | h | h | h | h | h | h | h | h <;> simp [h]
        · simp at h1; simp [h1]
  · rw [doCreateCluster_file w s sch hcf hs, stateAtCoreAction_file w s hcf]
    refine ⟨⟨fun h => ?_, fun h => ?_⟩, fun s4 h => ?_⟩
    · have := fileSource_calls _ _ _ h; simp at this
    · simp at h
    · simp at h

theorem provisioning_failure_is_fatal_witness :
    stateAtCoreAction stormWorld plainState = some plainAtCoreAction ∧
    stormWorld.CreateClusterWithNodeGroups plainAtCoreAction.cfg plainAtCoreAction.ng ≠ [] ∧
    (doCreateCluster stormWorld plainState).res
      = .error (.failedToCreateCluster "\"floral-unicorn-1\"") :=
  ⟨by decide, by decide,
   ((provisioning_failure_is_fatal stormWorld plainState).2 plainAtCoreAction
      (by decide) (by decide)).1⟩

/-- C5, counterexample. In the branch DedicatedNew the check is not applied: with private
networking asked for and a configuration that lacks sufficient private subnets after
SetAvailabilityZones and SetSubnets, createOrImportVPC returns nil. -/
theorem sufficiency_check_skipped_for_dedicated :
    Strategy.DedicatedNew.taken (createOrImportVPC scarceWorld privateState).trace = true ∧
    (createOrImportVPC scarceWorld privateState).trace
      = [Call.SetAvailabilityZones, Call.SetSubnets] ∧
    (createOrImportVPC scarceWorld privateState).res = .ok privateState ∧
    privateState.ng.PrivateNetworking = true ∧
    scarceWorld.HasSufficientPrivateSubnets privateState.cfg = false := by
  refine ⟨by decide, by decide, rfl, rfl, rfl⟩

/-- C5, amended. The check canUseForPrivateNodeGroup is applied on the success path of the
branches ImportedFrom and ExplicitSubnets: there, when the subnet setup succeeds, the
nodegroup asks for private networking and the configuration reached lacks sufficient
private subnets, createOrImportVPC returns an error (the one of canUseForPrivateNodeGroup,
or in ExplicitSubnets the one of HasSufficientSubnets when that check fails first). The
branch DedicatedNew returns nil once SetAvailabilityZones and SetSubnets succeed. -/
theorem sufficiency_check_on_imported_and_explicit (w : World) (s : State)
    (cfg1 : ClusterConfig) (hp : s.ng.PrivateNetworking = true)
    (hi : w.HasSufficientPrivateSubnets cfg1 = false) :
    (s.subnetsGiven = false ∧ s.kopsClusterNameForVPC ≠ "" ∧ s.availabilityZones = [] →
      w.NewWrapper s.p.Region s.kopsClusterNameForVPC = none →
      w.UseVPC s.kopsClusterNameForVPC s.cfg = .ok cfg1 →
      (createOrImportVPC w s).res = .error .tooFewPrivateSubnets) ∧
    (s.subnetsGiven = true ∧ s.kopsClusterNameForVPC = "" ∧ s.availabilityZones = [] →
      (useGivenSubnets w s (subnetsOrder w) s.cfg).res = .ok cfg1 →
      (w.HasSufficientSubnets cfg1 = none ∧
        (createOrImportVPC w s).res = .error .tooFewPrivateSubnets) ∨
      ∃ msg, w.HasSufficientSubnets cfg1 = some msg ∧
        (createOrImportVPC w s).res = .error (.insufficientSubnets msg)) ∧
    (s.subnetsGiven = false ∧ s.kopsClusterNameForVPC = "" →
      ∀ cfg0, w.SetAvailabilityZones s.cfg s.availabilityZones = .ok cfg0 →
      w.SetSubnets cfg0 = .ok cfg1 →
      (createOrImportVPC w s).res = .ok { s with cfg := cfg1 }) := by
  refine ⟨?_, ?_, ?_⟩
  · rintro ⟨h1, h2, h3⟩ hw hu
    simp [createOrImportVPC, h1, h2, h3, hw, hu, Run.andThen, Run.check, Run.call,
      canUseForPrivateNodeGroup, hp, hi, Run.fail]
  · rintro ⟨h1, h2, h3⟩ hu
    cases hs : w.HasSufficientSubnets cfg1 with
    | none =>
      left
      refine ⟨rfl, ?_⟩
      simp [createOrImportVPC, h1, h2, h3, hu, hs, Run.andThen, canUseForPrivateNodeGroup, hp,
        hi, Run.fail]
    | some msg =>
      right
      refine ⟨msg, rfl, ?_⟩
      simp [createOrImportVPC, h1, h2, h3, hu, hs, Run.andThen, Run.fail]
  · rintro ⟨h1, h2⟩ cfg0 ha hb
    simp [createOrImportVPC, h1, h2, ha, hb, Run.andThen, Run.call, Run.ret]

theorem sufficiency_check_on_imported_and_explicit_witness :
    privateKopsState.ng.PrivateNetworking = true ∧
    scarceWorld.HasSufficientPrivateSubnets privateKopsState.cfg = false ∧
    (createOrImportVPC scarceWorld privateKopsState).res = .error .tooFewPrivateSubnets :=
  ⟨rfl, rfl,
   (sufficiency_check_on_imported_and_explicit scarceWorld privateKopsState
      privateKopsState.cfg rfl rfl).1 ⟨rfl, by decide, rfl⟩ rfl rfl⟩

theorem validVersionLoop_eq_true (v : String) (l : List String) (acc : Bool) :
    validVersionLoop v l acc = true ↔ acc = true ∨ v ∈ l := by
  induction l generalizing acc with
  | nil => simp [validVersionLoop]
  | cons a l ih =>
    simp only [validVersionLoop, ih, List.mem_cons]
    by_cases h : v = a
    · simp [h]
    · simp [h]

/-- C6, the code at the failing input. The version check returns its error exactly when the
requested version equals LatestVersion and is not supported; so the version 1.9, which is
neither supported nor the latest one, passes the check, CheckAuth and the provisioning
follow and doCreateCluster returns nil. -/
theorem version_check_only_for_latest :
    (∀ (w : World) (v : String),
      (versionCheck w v).res = .error (.invalidVersion w.SupportedVersions) ↔
        v = w.LatestVersion ∧ v ∉ w.SupportedVersions) ∧
    oldVersionState.cfg.Metadata.Version ∉ calmWorld.SupportedVersions ∧
    (versionCheck calmWorld oldVersionState.cfg.Metadata.Version).res = .ok () ∧
    Call.CheckAuth ∈ (doCreateCluster calmWorld oldVersionState).trace ∧
    Call.CreateClusterWithNodeGroups ∈ (doCreateCluster calmWorld oldVersionState).trace ∧
    ∃ st, (doCreateCluster calmWorld oldVersionState).res = .ok st := by
  refine ⟨?_, by decide, rfl, by decide, by decide, ⟨_, rfl⟩⟩
  intro w v
  unfold versionCheck
  by_cases h : v = w.LatestVersion
  · rw [if_pos h]
    by_cases hv : v ∈ w.SupportedVersions
    · have : validVersionLoop v w.SupportedVersions false = true :=
        (validVersionLoop_eq_true _ _ _).mpr (Or.inr hv)
      rw [if_neg (by simp [this])]
      exact ⟨fun hh => by simp [Run.ret] at hh, fun hh => absurd hv hh.2⟩
    · have : validVersionLoop v w.SupportedVersions false = false := by
        cases hb : validVersionLoop v w.SupportedVersions false with
        | false => rfl
        | true =>
          rcases (validVersionLoop_eq_true _ _ _).mp hb with h1 | h1
          · exact absurd h1 (by decide)
          · exact absurd h1 hv
      rw [if_pos this]
      exact ⟨fun _ => ⟨h, hv⟩, fun _ => rfl⟩
  · rw [if_neg h]
    simp [Run.ret, h]

theorem createOrImportVPC_explicit_error (w : World) (s : State) (e : Error)
    (h1 : s.subnetsGiven = true) (h2 : s.kopsClusterNameForVPC = "")
    (h3 : s.availabilityZones = []) (h : (createOrImportVPC w s).res = .error e) :
    e.isConflict = false := by
  simp only [createOrImportVPC, h1, h2, h3] at h
  simp at h
  rcases Run.andThen_res_error _ _ _ h with h4 | ⟨a, _, h4⟩
  · exact (useGivenSubnets_isLate _ _ _ _ _ h4).2
  · split at h4
    · simp [Run.fail] at h4; rw [← h4]; rfl
    · rcases Run.andThen_res_error _ _ _ h4 with h5 | ⟨_, _, h5⟩
      · exact (canUseForPrivateNodeGroup_isLate _ _ _ _ h5).2
      · simp [Run.ret] at h5

theorem createOrImportVPC_imported_error (w : World) (s : State) (e : Error)
    (h1 : s.subnetsGiven = false) (h2 : s.kopsClusterNameForVPC ≠ "")
    (h3 : s.availabilityZones = []) (h : (createOrImportVPC w s).res = .error e) :
    e.isConflict = false := by
  simp only [createOrImportVPC, h1, h3] at h
  simp [h2] at h
  rcases Run.andThen_res_error _ _ _ h with h4 | ⟨_, _, h4⟩
  · exact (Run.check_res_error _ _ _ h4).2
  rcases Run.andThen_res_error _ _ _ h4 with h5 | ⟨_, _, h5⟩
  · exact (Run.call_res_error _ _ _ h5).2
  rcases Run.andThen_res_error _ _ _ h5 with h6 | ⟨_, _, h6⟩
  · exact (canUseForPrivateNodeGroup_isLate _ _ _ _ h6).2
  · simp [Run.ret] at h6

theorem createOrImportVPC_dedicated_error (w : World) (s : State) (e : Error)
    (h1 : s.subnetsGiven = false) (h2 : s.kopsClusterNameForVPC = "")
    (h : (createOrImportVPC w s).res = .error e) :
    e.isConflict = false := by
  simp only [createOrImportVPC, h1, h2] at h
  simp at h
  rcases Run.andThen_res_error _ _ _ h with h4 | ⟨_, _, h4⟩
  · exact (Run.call_res_error _ _ _ h4).2
  rcases Run.andThen_res_error _ _ _ h4 with h5 | ⟨_, _, h5⟩
  · exact (Run.call_res_error _ _ _ h5).2
  · simp [Run.ret] at h5

theorem createOrImportVPC_conflict_trace (w : World) (s : State) (e : Error)
    (h : (createOrImportVPC w s).res = .error e) (he : e.isConflict = true) :
    (createOrImportVPC w s).trace = [] ∧ 2 ≤ signalCount s := by
  by_cases hc : 2 ≤ signalCount s
  · exact ⟨(createOrImportVPC_conflict w s hc).1, hc⟩
  · exfalso
    have hfalse : e.isConflict = false → False := fun hh => by
      rw [hh] at he; exact absurd he (by decide)
    apply hfalse
    by_cases h1 : s.subnetsGiven = true
    · have h2 : s.kopsClusterNameForVPC = "" := by
        by_contra hk
        simp [signalCount, h1, hk] at hc
      have h3 : s.availabilityZones = [] := by
        by_contra hz
        simp [signalCount, h1, h2, hz] at hc
      exact createOrImportVPC_explicit_error w s e h1 h2 h3 h
    · have h1f : s.subnetsGiven = false := by simpa using h1
      by_cases h2 : s.kopsClusterNameForVPC = ""
      · exact createOrImportVPC_dedicated_error w s e h1f h2 h
      · have h3 : s.availabilityZones = [] := by
          by_contra hz
          simp [signalCount, h1f, h2, hz] at hc
        exact createOrImportVPC_imported_error w s e h1f h2 h3 h

theorem fileSource_res_error (w : World) (s : State) (e : Error)
    (h : (fileSource w s).res = .error e) :
    (∃ c msg, e = .external c msg) ∨ e = .wrongType ∨
      (∃ f, e = .incompatibleWithConfigFile f) ∨ e = .nameMustBeSet ∨ e = .regionMustBeSet := by
  unfold fileSource at h
  rcases Run.andThen_res_error _ _ _ h with h1 | ⟨_, _, h1⟩
  · unfold Run.call at h1; split at h1 <;> simp at h1; exact Or.inl ⟨_, _, h1.symm⟩
  rcases Run.andThen_res_error _ _ _ h1 with h2 | ⟨obj, _, h2⟩
  · unfold Run.call at h2; split at h2 <;> simp at h2; exact Or.inl ⟨_, _, h2.symm⟩
  cases obj with
  | other => simp [Run.fail] at h2; exact Or.inr (Or.inl h2.symm)
  | clusterConfig cfg =>
    simp only at h2
    split at h2
    · rename_i e2 hc
      simp [Run.fail] at h2
      subst h2
      right; right; left
      generalize incompatibleFlags = l at hc
      induction l with
      | nil => simp [checkIncompatibleFlags] at hc
      | cons a l ih =>
        simp only [checkIncompatibleFlags] at hc
        split at hc
        · simp at hc; exact ⟨a, hc.symm⟩
        · exact ih hc
    · split at h2
      · simp [Run.nilDereference] at h2
      · split at h2
        · simp [Run.fail] at h2; exact Or.inr (Or.inr (Or.inr (Or.inl h2.symm)))
        · split at h2
          · simp [Run.fail] at h2; exact Or.inr (Or.inr (Or.inr (Or.inr h2.symm)))
          · rcases Run.andThen_res_error _ _ _ h2 with h3 | ⟨_, _, h3⟩
            · unfold Run.check at h3; split at h3 <;> simp at h3; exact Or.inl ⟨_, _, h3.symm⟩
            · simp [Run.ret] at h3

theorem flagSource_res_error (w : World) (s : State) (e : Error)
    (h : (flagSource w s).res = .error e) :
    e = ErrNameFlagAndArg s.cfg.Metadata.Name s.nameArg ∨ e = .sshPublicKeyEmpty := by
  unfold flagSource at h
  rcases Run.andThen_res_error _ _ _ h with h1 | ⟨_, _, h1⟩
  · exact Or.inl (resolveName_res_error _ _ _ h1).1
  · split at h1
    · simp [Run.fail] at h1; exact Or.inr h1.symm
    · simp [Run.ret] at h1

theorem preflight_ok (w : World) (s s2 : State) (h : (preflight w s).res = .ok s2) :
    (preflight w s).trace = [Call.IsSupportedRegion, Call.CheckAuth] ∧
      w.CheckAuth = none ∧ w.IsSupportedRegion s.p = true := by
  simp only [preflight, versionCheck, autoKubeconfig, Run.andThen, Run.did, Run.check, Run.ret,
    Run.fail] at h ⊢
  repeat' split at h
  all_goals simp_all

/-- C7, counterexample. With a list of zones and a private subnet given, doCreateCluster
returns the conflict error after having called ctl.CheckAuth. -/
theorem conflict_error_after_check_auth :
    (doCreateCluster calmWorld conflictState).res = .error .subnetsAndZones ∧
    Call.CheckAuth ∈ (doCreateCluster calmWorld conflictState).trace ∧
    (doCreateCluster calmWorld conflictState).trace
      = [Call.IsSupportedRegion, Call.CheckAuth] := by
  refine ⟨rfl, by decide, by decide⟩

/-- C7, amended. When doCreateCluster fails because two networking signals conflict, the
calls made in the run are ctl.IsSupportedRegion and ctl.CheckAuth (both answered without
error) and no other: none of SetAvailabilityZones, SetSubnets, NewWrapper, UseVPC,
UseSubnets, EnsureAMI, LoadSSHPublicKey, CreateClusterWithNodeGroups was called. -/
theorem conflict_precedes_networking_calls (w : World) (s : State) (e : Error)
    (h : (doCreateCluster w s).res = .error e)
    (he : e = .kopsAndZones ∨ e = .kopsAndSubnets ∨ e = .subnetsAndZones) :
    (doCreateCluster w s).trace = [Call.IsSupportedRegion, Call.CheckAuth] ∧
    w.CheckAuth = none ∧
    ∀ c ∈ (doCreateCluster w s).trace,
      c ∉ [Call.SetAvailabilityZones, Call.SetSubnets, Call.NewWrapper, Call.UseVPC,
        Call.UseSubnets .Private, Call.UseSubnets .Public, Call.EnsureAMI,
        Call.LoadSSHPublicKey, Call.CreateClusterWithNodeGroups] := by
  have hconf : e.isConflict = true := by rcases he with h1 | h1 | h1 <;> rw [h1] <;> rfl
  have hnot : e.isConflict = false → False := fun hh => by
    rw [hh] at hconf; exact absurd hconf (by decide)
  obtain ⟨sch, hs⟩ := AddToScheme_ok w s.scheme
  have key : (doCreateCluster w s).trace = [Call.IsSupportedRegion, Call.CheckAuth] ∧
      w.CheckAuth = none := by
    by_cases hcf : s.configFile = ""
    · rw [doCreateCluster_flag w s sch hcf hs] at h ⊢
      generalize ({ s with scheme := sch } : State) = s0 at h ⊢
      unfold flagSourceRun afterFlagSource at h ⊢
      cases h1 : (flagSource w s0).res with
      | error e1 =>
        rw [(Run.andThen_error _ _ _ h1).1] at h
        simp at h
        subst h
        exfalso; apply hnot
        rcases flagSource_res_error _ _ _ h1 with h2 | h2 <;> rw [h2] <;> rfl
      | panicked p1 =>
        rw [(Run.andThen_panicked _ _ _ h1).1] at h
        simp at h
      | ok s1 =>
        rw [(Run.andThen_ok _ _ _ h1).1] at h
        rw [(Run.andThen_ok _ _ _ h1).2, flagSource_calls, List.nil_append]
        cases h2 : (preflight w s1).res with
        | error e2 =>
          rw [(Run.andThen_error _ _ _ h2).1] at h
          simp at h
          subst h
          exfalso; apply hnot
          rcases preflight_res_error _ _ _ h2 with h3 | h3 | ⟨_, h3⟩ | ⟨h3, _⟩ <;>
            rw [h3] <;> rfl
        | panicked p2 =>
          rw [(Run.andThen_panicked _ _ _ h2).1] at h
          simp at h
        | ok s2 =>
          rw [(Run.andThen_ok _ _ _ h2).1] at h
          rw [(Run.andThen_ok _ _ _ h2).2]
          obtain ⟨ht, hauth, _⟩ := preflight_ok w s1 s2 h2
          rw [ht]
          refine ⟨?_, hauth⟩
          unfold afterPreflight at h ⊢
          cases h3 : (createOrImportVPC w s2).res with
          | error e3 =>
            rw [(Run.andThen_error _ _ _ h3).1] at h
            simp at h
            subst h
            rw [(Run.andThen_error _ _ _ h3).2,
              (createOrImportVPC_conflict_trace w s2 _ h3 hconf).1]
            rfl
          | panicked p3 =>
            rw [(Run.andThen_panicked _ _ _ h3).1] at h
            simp at h
          | ok s3 =>
            rw [(Run.andThen_ok _ _ _ h3).1] at h
            exfalso; apply hnot
            rcases Run.andThen_res_error _ _ _ h with h4 | ⟨_, _, h4⟩
            · exact (resolveResources_isLate _ _ _ h4).2
            rcases Run.andThen_res_error _ _ _ h4 with h5 | ⟨_, _, h5⟩
            · exact (coreAction_isLate _ _ _ h5).2
            · exact (postCreationAction_isLate _ _ _ h5).2
    · rw [doCreateCluster_file w s sch hcf hs] at h
      exfalso; apply hnot
      rcases fileSource_res_error _ _ _ h with ⟨_, _, h1⟩ | h1 | ⟨_, h1⟩ | h1 | h1 <;>
        rw [h1] <;> rfl
  refine ⟨key.1, key.2, ?_⟩
  rw [key.1]
  decide

theorem conflict_precedes_networking_calls_witness :
    (doCreateCluster calmWorld conflictState).res = .error .subnetsAndZones ∧
    calmWorld.CheckAuth = none :=
  ⟨rfl, (conflict_precedes_networking_calls calmWorld conflictState .subnetsAndZones rfl
    (Or.inr (Or.inr rfl))).2.1⟩

theorem flagSource_ok_fields (w : World) (s s1 : State) (h : (flagSource w s).res = .ok s1) :
    s1.autoKubeconfigPath = s.autoKubeconfigPath ∧ s1.kubeconfigPath = s.kubeconfigPath ∧
      s1.p = s.p ∧ s1.ng = s.ng := by
  simp only [flagSource, resolveName, Run.andThen, Run.ret, Run.fail] at h
  repeat' split at h
  all_goals simp_all
  all_goals (subst_vars; simp)

theorem preflight_passed (w : World) (s : State) (hr : w.IsSupportedRegion s.p = true)
    (hv : (versionCheck w s.cfg.Metadata.Version).res = .ok ()) (ha : w.CheckAuth = none) :
    (preflight w s).res
      = (autoKubeconfig w { s with ng := { s.ng with Name := w.NodeGroupName s.ng.Name "" } }).res := by
  have e1 : (Run.did Call.IsSupportedRegion (w.IsSupportedRegion s.p)).res = .ok true := by
    simp [Run.did, hr]
  have e3 : (Run.check Call.CheckAuth w.CheckAuth).res = .ok () := by simp [Run.check, ha]
  unfold preflight
  rw [(Run.andThen_ok _ _ _ e1).1]
  simp only [Bool.true_eq_false, if_false]
  rw [(Run.andThen_ok _ _ _ hv).1, (Run.andThen_ok _ _ _ e3).1]

/-- C8. Conflict on the kubeconfig path: when the checks before it pass (flag source, region,
version, credentials), doCreateCluster fails with the error that says the flags kubeconfig
and auto-kubeconfig cannot be used at the same time if and only if autoKubeconfigPath is set
and kubeconfigPath differs from DefaultPath; when autoKubeconfigPath is set and
kubeconfigPath is DefaultPath the path becomes AutoPath of the cluster name; when
autoKubeconfigPath is not set the path is left as it was. -/
theorem kubeconfig_path_conflict (w : World) (s s1 : State) (sch : Scheme)
    (hcf : s.configFile = "") (hs : AddToScheme w s.scheme = .ok sch)
    (h1 : (flagSource w { s with scheme := sch }).res = .ok s1)
    (hr : w.IsSupportedRegion s1.p = true)
    (hv : (versionCheck w s1.cfg.Metadata.Version).res = .ok ())
    (ha : w.CheckAuth = none) :
    ((doCreateCluster w s).res = .error .kubeconfigAndAuto ↔
      s.autoKubeconfigPath = true ∧ s.kubeconfigPath ≠ w.DefaultPath) ∧
    Error.kubeconfigAndAuto.message
      = "--kubeconfig and --auto-kubeconfig cannot be used at the same time" ∧
    (s.autoKubeconfigPath = true ∧ s.kubeconfigPath = w.DefaultPath →
      ∃ s2, (preflight w s1).res = .ok s2 ∧
        s2.kubeconfigPath = w.AutoPath s1.cfg.Metadata.Name) ∧
    (s.autoKubeconfigPath = false →
      ∃ s2, (preflight w s1).res = .ok s2 ∧ s2.kubeconfigPath = s.kubeconfigPath) := by
  obtain ⟨hf1, hf2, _, _⟩ := flagSource_ok_fields w _ s1 h1
  simp only at hf1 hf2
  have hp := preflight_passed w s1 hr hv ha
  have hrun : (doCreateCluster w s).res
      = ((preflight w s1).andThen fun s2 => afterPreflight w s2).res := by
    rw [doCreateCluster_flag w s sch hcf hs]
    unfold flagSourceRun afterFlagSource
    rw [(Run.andThen_ok _ _ _ h1).1]
  refine ⟨?_, rfl, ?_, ?_⟩
  · rw [hrun]
    constructor
    · intro h
      rcases Run.andThen_res_error _ _ _ h with h2 | ⟨_, _, h2⟩
      · rcases preflight_res_error _ _ _ h2 with h3 | h3 | ⟨_, h3⟩ | ⟨_, h3, h4⟩
        · simp [ErrUnsupportedRegion] at h3
        · simp at h3
        · simp at h3
        · rw [hf1] at h3; rw [hf2] at h4; exact ⟨h3, h4⟩
      · have := afterPreflight_isLate _ _ _ h2
        simp [Error.isLate] at this
    · rintro ⟨ht, hk⟩
      have : (preflight w s1).res = .error .kubeconfigAndAuto := by
        rw [hp]
        simp [autoKubeconfig, hf1, hf2, ht, hk, Run.fail]
      exact (Run.andThen_error _ _ _ this).1
  · rintro ⟨ht, hk⟩
    rw [hp]
    simp [autoKubeconfig, hf1, hf2, ht, hk, Run.ret]
  · intro ht
    rw [hp]
    simp [autoKubeconfig, hf1, hf2, ht, Run.ret]

theorem kubeconfig_path_conflict_witness :
    autoPathState.autoKubeconfigPath = true ∧
    autoPathState.kubeconfigPath ≠ calmWorld.DefaultPath ∧
    (doCreateCluster calmWorld autoPathState).res = .error .kubeconfigAndAuto :=
  ⟨rfl, by decide,
   (kubeconfig_path_conflict calmWorld autoPathState
      { autoPathState with
        cfg := { autoPathState.cfg with
          Metadata := { autoPathState.cfg.Metadata with Name := "floral-unicorn-1" } },
        scheme := plainAtCoreAction.scheme }
      plainAtCoreAction.scheme rfl rfl rfl rfl rfl rfl).1.mpr ⟨rfl, by decide⟩⟩

theorem stateAtCoreAction_some (w : World) (s s4 : State)
    (h : stateAtCoreAction w s = some s4) :
    s.configFile = "" ∧ ∃ sch, AddToScheme w s.scheme = .ok sch ∧
      (beforeCoreAction w { s with scheme := sch }).res = .ok s4 := by
  obtain ⟨sch, hs⟩ := AddToScheme_ok w s.scheme
  by_cases hcf : s.configFile = ""
  · refine ⟨hcf, sch, hs, ?_⟩
    rw [stateAtCoreAction_flag w s sch hcf hs] at h
    cases hb : (beforeCoreAction w { s with scheme := sch }).res with
    | error e => rw [hb] at h; simp [Result.toOption] at h
    | panicked p => rw [hb] at h; simp [Result.toOption] at h
    | ok a => rw [hb] at h; simp [Result.toOption] at h; rw [h]
  · rw [stateAtCoreAction_file w s hcf] at h
    simp at h

theorem postCreationAction_after_steps (w : World) (s4 : State) (ctx : String)
    (hcc : w.NewClientConfig s4.cfg = .ok ctx)
    (hw : s4.writeKubeconfig = true → (w.Write s4.kubeconfigPath s4.setContext).2 = none)
    (hcs : w.NewClientSetWithEmbeddedToken = none)
    (hcp : w.WaitForControlPlane s4.cfg.Metadata = none)
    (hcm : w.CreateNodeGroupAuthConfigMap s4.ng = none)
    (hwn : w.WaitForNodes s4.ng = none)
    (hsc : s4.cfg.Storage = true ∧ s4.cfg.Metadata.Version = "1.10" →
      w.AddDefaultStorageClass = none) :
    (∀ env, w.GetCredentialsEnv = .ok env → ∃ st, (postCreationAction w s4).res = .ok st) ∧
    (∀ msg, w.GetCredentialsEnv = .error msg →
      (postCreationAction w s4).res = .error (.external .GetCredentialsEnv msg)) := by
  have h1 : (Run.call Call.NewClientConfig (w.NewClientConfig s4.cfg)).res = .ok ctx := by
    simp [Run.call, hcc]
  have h2 : ∃ s1, (writeKubeconfigStep w s4).res = .ok s1 ∧ s1.cfg = s4.cfg ∧ s1.ng = s4.ng := by
    unfold writeKubeconfigStep
    by_cases hwk : s4.writeKubeconfig = true
    · simp [hwk, Run.andThen, Run.did, hw hwk, Run.ret]
    · simp [hwk, Run.ret]
  obtain ⟨s1, h2, hcfg, hng⟩ := h2
  have h3 : (Run.check Call.NewClientSetWithEmbeddedToken
      w.NewClientSetWithEmbeddedToken).res = .ok () := by simp [Run.check, hcs]
  have h4 : (Run.check Call.WaitForControlPlane (w.WaitForControlPlane s1.cfg.Metadata)).res
      = .ok () := by simp [Run.check, hcfg, hcp]
  have h5 : (Run.check Call.CreateNodeGroupAuthConfigMap
      (w.CreateNodeGroupAuthConfigMap s1.ng)).res = .ok () := by simp [Run.check, hng, hcm]
  have h6 : (Run.check Call.WaitForNodes (w.WaitForNodes s1.ng)).res = .ok () := by
    simp [Run.check, hng, hwn]
  have h7 : (if s1.cfg.Storage = true ∧ s1.cfg.Metadata.Version = "1.10" then
      Run.check Call.AddDefaultStorageClass w.AddDefaultStorageClass
    else Run.ret ()).res = .ok () := by
    split
    · rename_i hh
      rw [hcfg] at hh
      simp [Run.check, hsc hh]
    · rfl
  have hres : (postCreationAction w s4).res
      = ((Run.call Call.GetCredentialsEnv w.GetCredentialsEnv).andThen fun env =>
        (Run.did Call.CheckAllCommands
          (w.CheckAllCommands s1.kubeconfigPath s1.setContext ctx env)).andThen fun _ =>
        if w.IsGPUInstanceType s1.ng.InstanceType = true then Run.ret s1 else Run.ret s1).res := by
    unfold postCreationAction
    rw [(Run.andThen_ok _ _ _ h1).1, (Run.andThen_ok _ _ _ h2).1, (Run.andThen_ok _ _ _ h3).1,
      (Run.andThen_ok _ _ _ h4).1, (Run.andThen_ok _ _ _ h5).1, (Run.andThen_ok _ _ _ h6).1,
      (Run.andThen_ok _ _ _ h7).1]
  rw [hres]
  constructor
  · intro env henv
    refine ⟨s1, ?_⟩
    simp [henv, Run.andThen, Run.call, Run.did, Run.ret]
  · intro msg henv
    simp [henv, Run.andThen, Run.call]

/-- C9, counterexample. Provisioning and every readiness step succeed, the lookup of the
credentials environment fails, and doCreateCluster returns that error. -/
theorem credentials_lookup_failure_aborts :
    stateAtCoreAction noCredentialsWorld plainState = some plainAtCoreAction ∧
    noCredentialsWorld.CreateClusterWithNodeGroups plainAtCoreAction.cfg plainAtCoreAction.ng
      = [] ∧
    (doCreateCluster noCredentialsWorld plainState).trace
      = [Call.IsSupportedRegion, Call.CheckAuth, Call.SetAvailabilityZones, Call.SetSubnets,
        Call.EnsureAMI, Call.LoadSSHPublicKey, Call.LogObj, Call.CreateClusterWithNodeGroups,
        Call.NewClientConfig, Call.Write, Call.NewClientSetWithEmbeddedToken,
        Call.WaitForControlPlane, Call.CreateNodeGroupAuthConfigMap, Call.WaitForNodes,
        Call.GetCredentialsEnv] ∧
    (doCreateCluster noCredentialsWorld plainState).res
      = .error (.external .GetCredentialsEnv "no credentials") := by
  refine ⟨by decide, rfl, by decide, rfl⟩

/-- C9, amended. When provisioning succeeds and every readiness step succeeds (NewClientConfig,
the writing of the kubeconfig when enabled, NewClientSetWithEmbeddedToken,
WaitForControlPlane, CreateNodeGroupAuthConfigMap, WaitForNodes, AddDefaultStorageClass when
applicable), doCreateCluster returns nil provided ctl.GetCredentialsEnv succeeds, whatever
utils.CheckAllCommands answers and whether or not the instance type is a GPU one; an error
of ctl.GetCredentialsEnv is returned. -/
theorem advisories_do_not_abort (w : World) (s s4 : State) (ctx : String)
    (h4 : stateAtCoreAction w s = some s4)
    (hprov : w.CreateClusterWithNodeGroups s4.cfg s4.ng = [])
    (hcc : w.NewClientConfig s4.cfg = .ok ctx)
    (hw : s4.writeKubeconfig = true → (w.Write s4.kubeconfigPath s4.setContext).2 = none)
    (hcs : w.NewClientSetWithEmbeddedToken = none)
    (hcp : w.WaitForControlPlane s4.cfg.Metadata = none)
    (hcm : w.CreateNodeGroupAuthConfigMap s4.ng = none)
    (hwn : w.WaitForNodes s4.ng = none)
    (hsc : s4.cfg.Storage = true ∧ s4.cfg.Metadata.Version = "1.10" →
      w.AddDefaultStorageClass = none) :
    (∀ env, w.GetCredentialsEnv = .ok env → ∃ st, (doCreateCluster w s).res = .ok st) ∧
    (∀ msg, w.GetCredentialsEnv = .error msg →
      (doCreateCluster w s).res = .error (.external .GetCredentialsEnv msg)) := by
  obtain ⟨hcf, sch, hs, hb⟩ := stateAtCoreAction_some w s s4 h4
  have hc : (coreAction w s4).res = .ok s4 := by
    simp [coreAction, Run.andThen, Run.did, hprov, Run.ret]
  have hrun : (doCreateCluster w s).res = (postCreationAction w s4).res := by
    rw [doCreateCluster_flag w s sch hcf hs, flagSourceRun_eq, (Run.andThen_ok _ _ _ hb).1,
      (Run.andThen_ok _ _ _ hc).1]
  rw [hrun]
  exact postCreationAction_after_steps w s4 ctx hcc hw hcs hcp hcm hwn hsc

theorem advisories_do_not_abort_witness :
    noKubectlWorld.CheckAllCommands "kube/config" true "ctx" [] = some "kubectl not found" ∧
    noKubectlWorld.IsGPUInstanceType plainAtCoreAction.ng.InstanceType = true ∧
    ∃ st, (doCreateCluster noKubectlWorld plainState).res = .ok st :=
  ⟨rfl, rfl,
   (advisories_do_not_abort noKubectlWorld plainState plainAtCoreAction "ctx" (by decide) rfl
      rfl (fun _ => rfl) rfl rfl rfl rfl (fun _ => rfl)).1 [] rfl⟩

theorem fileSource_result (w : World) (s : State) :
    (Call.LogObj ∉ (fileSource w s).trace ∧ ∃ e, (fileSource w s).res = .error e ∧
      ((∃ msg, e = .external .ReadFile msg) ∨ (∃ msg, e = .external .Decode msg) ∨
        e = .wrongType ∨ (∃ f, e = .incompatibleWithConfigFile f) ∨ e = .nameMustBeSet ∨
        e = .regionMustBeSet)) ∨
    (∃ cfg, (fileSource w s).trace = [Call.ReadFile, Call.Decode, Call.LogObj] ∧
      ((∃ msg, w.LogObj "loaded cluster config\n" cfg = some msg ∧
          (fileSource w s).res = .error (.external .LogObj msg)) ∨
        (w.LogObj "loaded cluster config\n" cfg = none ∧
          ∃ st, (fileSource w s).res = .ok st))) ∨
    (∃ data cfg, w.ReadFile s.configFile = .ok data ∧
      w.Decode s.scheme data = .ok (.clusterConfig cfg) ∧ cfg.Metadata = none ∧
      (fileSource w s).trace = [Call.ReadFile, Call.Decode] ∧
      (fileSource w s).res = Run.nilDereference.res) := by
  unfold fileSource
  cases hr : w.ReadFile s.configFile with
  | error m => left; simp [hr, Run.andThen, Run.call]
  | ok data =>
    cases hd : w.Decode s.scheme data with
    | error m => left; simp [hr, hd, Run.andThen, Run.call]
    | ok obj =>
      cases obj with
      | other => left; simp [hr, hd, Run.andThen, Run.call, Run.fail]
      | clusterConfig cfg =>
        cases hc : checkIncompatibleFlags s.changed incompatibleFlags with
        | some e =>
          left
          have he : ∃ f, e = .incompatibleWithConfigFile f := by
            generalize incompatibleFlags = l at hc
            induction l with
            | nil => simp [checkIncompatibleFlags] at hc
            | cons a l ih =>
              simp only [checkIncompatibleFlags] at hc
              split at hc
              · simp at hc; exact ⟨a, hc.symm⟩
              · exact ih hc
          obtain ⟨f, rfl⟩ := he
          simp [hr, hd, Run.andThen, Run.call, Run.fail, hc]
        | none =>
          cases hm : cfg.Metadata with
          | none =>
            right; right
            refine ⟨data, cfg, rfl, hd, hm, ?_, ?_⟩ <;>
              simp [hr, hd, hc, hm, Run.andThen, Run.call, Run.nilDereference]
          | some m =>
            by_cases hn : m.Name = ""
            · left; simp [hr, hd, Run.andThen, Run.call, Run.fail, hc, hm, hn]
            · by_cases hg : m.Region = ""
              · left; simp [hr, hd, Run.andThen, Run.call, Run.fail, hc, hm, hn, hg]
              · right; left
                refine ⟨⟨m, cfg.VPC, cfg.Storage⟩, ?_⟩
                cases hl : w.LogObj "loaded cluster config\n" ⟨m, cfg.VPC, cfg.Storage⟩ with
                | some msg =>
                  simp [hr, hd, Run.andThen, Run.call, Run.check, hc, hm, hn, hg, hl]
                | none =>
                  simp [hr, hd, Run.andThen, Run.call, Run.check, Run.ret, hc, hm, hn, hg, hl]

/-- C10, the code at the failing input. With a non-empty configFile doCreateCluster calls only
ReadFile, Decode and LogObj, hence none of IsSupportedRegion, CheckAuth, the networking
calls, EnsureAMI, LoadSSHPublicKey, CreateClusterWithNodeGroups and the readiness steps, and
a run that calls CreateClusterWithNodeGroups has an empty configFile. The run ends in the
branch of the config file in one of three ways: with an error of reading, decoding or
validation; with what printer.LogObj returns after validation and defaulting; or, when the
decoded ClusterConfig has no metadata and no listed flag is changed, with the panic of
line 170, where the function does not return. The last case occurs: a file that decodes
to a ClusterConfig without metadata, and no other flag. -/
theorem file_source_never_provisions :
    (∀ (w : World) (s : State), s.configFile ≠ "" →
      (∀ c ∈ (doCreateCluster w s).trace,
        c ∉ [Call.IsSupportedRegion, Call.CheckAuth, Call.SetAvailabilityZones,
          Call.SetSubnets, Call.NewWrapper, Call.UseVPC, Call.UseSubnets .Private,
          Call.UseSubnets .Public, Call.EnsureAMI, Call.LoadSSHPublicKey,
          Call.CreateClusterWithNodeGroups, Call.NewClientConfig, Call.Write,
          Call.NewClientSetWithEmbeddedToken, Call.WaitForControlPlane,
          Call.CreateNodeGroupAuthConfigMap, Call.WaitForNodes, Call.AddDefaultStorageClass,
          Call.GetCredentialsEnv, Call.CheckAllCommands]) ∧
      ((Call.LogObj ∉ (doCreateCluster w s).trace ∧
          ∃ e, (doCreateCluster w s).res = .error e ∧
            ((∃ msg, e = .external .ReadFile msg) ∨ (∃ msg, e = .external .Decode msg) ∨
              e = .wrongType ∨ (∃ f, e = .incompatibleWithConfigFile f) ∨
              e = .nameMustBeSet ∨ e = .regionMustBeSet)) ∨
        (∃ cfg, (doCreateCluster w s).trace = [Call.ReadFile, Call.Decode, Call.LogObj] ∧
          ((∃ msg, w.LogObj "loaded cluster config\n" cfg = some msg ∧
              (doCreateCluster w s).res = .error (.external .LogObj msg)) ∨
            (w.LogObj "loaded cluster config\n" cfg = none ∧
              ∃ st, (doCreateCluster w s).res = .ok st))) ∨
        (∃ sch data cfg, AddToScheme w s.scheme = .ok sch ∧
          w.ReadFile s.configFile = .ok data ∧
          w.Decode sch data = .ok (.clusterConfig cfg) ∧ cfg.Metadata = none ∧
          (doCreateCluster w s).trace = [Call.ReadFile, Call.Decode] ∧
          (doCreateCluster w s).res = Run.nilDereference.res))) ∧
    (∀ (w : World) (s : State),
      Call.CreateClusterWithNodeGroups ∈ (doCreateCluster w s).trace → s.configFile = "") ∧
    fileOnlyState.configFile ≠ "" ∧
    bareFileWorld.ReadFile fileOnlyState.configFile = .ok "kind: ClusterConfig" ∧
    bareFileWorld.Decode plainAtCoreAction.scheme "kind: ClusterConfig"
      = .ok (.clusterConfig ⟨none, none, true⟩) ∧
    (doCreateCluster bareFileWorld fileOnlyState).trace = [Call.ReadFile, Call.Decode] ∧
    (doCreateCluster bareFileWorld fileOnlyState).res
      = .panicked "runtime error: invalid memory address or nil pointer dereference" := by
  have hcalls : ∀ (w : World) (s : State), s.configFile ≠ "" →
      ∀ c ∈ (doCreateCluster w s).trace, c ∈ [Call.ReadFile, Call.Decode, Call.LogObj] := by
    intro w s hcf
    obtain ⟨sch, hs⟩ := AddToScheme_ok w s.scheme
    rw [doCreateCluster_file w s sch hcf hs]
    exact fileSource_calls w _
  refine ⟨fun w s hcf => ⟨?_, ?_⟩, ?_, by decide, rfl, rfl, by decide, rfl⟩
  · intro c hc
    have := hcalls w s hcf c hc
    simp at this
    rcases this with h | h | h <;> simp [h]
  · obtain ⟨sch, hs⟩ := AddToScheme_ok w s.scheme
    rw [doCreateCluster_file w s sch hcf hs]
    rcases fileSource_result w { s with scheme := sch } with h | h | h
    · exact Or.inl h
    · exact Or.inr (Or.inl h)
    · obtain ⟨data, cfg, h1, h2, h3, h4, h5⟩ := h
      exact Or.inr (Or.inr ⟨sch, data, cfg, hs, h1, h2, h3, h4, h5⟩)
  · intro w s h
    by_contra hcf
    have := hcalls w s hcf _ h
    simp at this

end Eksctl
